import Mathlib

/-!
# owon_dge: USB session lifecycle and SCPI transport of `src/owon_dge.c`

A shallow embedding of the C program.  The libusb-0.1 library is external to
the repository, so it appears as a parameter: an arbitrary deterministic
responder `LibUsb.step` over an abstract world `W`.  Every libusb call made by
the program is appended, together with the answer it received, to a trace held
in the program state; the claims about call sequences are statements about that
trace.  Console output (`printf`, `putchar`) and `sleep` do not touch the USB
state and are left out.  A function that can dereference `NULL` or write past a
fixed-size buffer returns an `Option`, `none` standing for that undefined
behaviour.
-/

namespace OwonDge

/-! ## Constants (`#define`s of the source) -/

def USB_LOCK_VENDOR : Nat := 0x5345
def USB_LOCK_PRODUCT : Nat := 0x1234
def BULK_WRITE_ENDPOINT : Nat := 0x01
def BULK_READ_ENDPOINT : Nat := 0x81
def MAX_USB_LOCKS : Nat := 10
def DEFAULT_INTERFACE : Int := 0x00
def DEFAULT_CONFIGURATION : Int := 0x01
def DEFAULT_TIMEOUT : Int := 500
def OWON_IDN_QUERY : List Char := "*IDN?".toList
def OWON_IDN_WANTED_35 : List Char := "OWON,DGE2035,".toList
def OWON_IDN_WANTED_70 : List Char := "OWON,DGE2070,".toList

/-- The descriptor type `USB_DT_DEVICE` of libusb's `usb.h`. -/
def USB_DT_DEVICE : Nat := 0x01

/-! ## Data model -/

/-- A `usb_dev_handle *`; the value `0` is the `NULL` pointer. -/
abbrev Handle := Nat

def NULL : Handle := 0

/-- The fields of `struct usb_device` the program reads (`descriptor.idVendor`,
`descriptor.idProduct`), plus the device number that tells two devices apart. -/
structure usb_device where
  idVendor : Nat
  idProduct : Nat
  devnum : Nat
deriving DecidableEq, Repr

/-- One node of the `usb_busses` list: its name and its `devices` list, in
enumeration order. -/
structure usb_bus where
  dirname : List Char
  devices : List usb_device
deriving DecidableEq, Repr

/-- The libusb calls the program makes, with their arguments. -/
inductive Call where
  | usb_init
  | usb_find_busses
  | usb_find_devices
  | usb_open (dev : usb_device)
  | usb_close (h : Handle)
  | usb_reset (h : Handle)
  | usb_set_configuration (h : Handle) (configuration : Int)
  | usb_claim_interface (h : Handle) (interface : Int)
  | usb_clear_halt (h : Handle) (ep : Nat)
  | usb_resetep (h : Handle) (ep : Nat)
  | usb_bulk_write (h : Handle) (ep : Nat) (bytes : List Char) (size : Int) (timeout : Int)
  | usb_bulk_read (h : Handle) (ep : Nat) (size : Int) (timeout : Int)
  | usb_get_descriptor (h : Handle) (type : Nat) (index : Nat) (size : Int)
deriving DecidableEq, Repr

/-- What a libusb call hands back: the `int` status, the handle (`usb_open`
only) and the bytes it stored in the caller's buffer (`usb_bulk_read` only). -/
structure Resp where
  ret : Int
  handle : Handle
  data : List Char
deriving DecidableEq, Repr

/-- One entry of the trace: a call and the answer it got. -/
structure Event where
  call : Call
  resp : Resp
deriving DecidableEq, Repr

/-- The external libusb library: how the world answers a call, and the global
`usb_busses` list as it stands in a given world. -/
structure LibUsb (W : Type) where
  step : W → Call → Resp × W
  usb_busses : W → List usb_bus

/-- Program state: the world behind libusb, the trace of calls made so far, and
the globals `usb_locks`, `locksFound`, `verbose`, `model`. -/
structure State (W : Type) where
  world : W
  trace : List Event
  usb_locks : List (Option usb_device)
  locksFound : Nat
  verbose : Bool
  model : Int

/-- The state at program start: `locksFound = 0`, `model = 0`, `verbose = 0`
and the `MAX_USB_LOCKS` slots of `usb_locks` all `NULL`. -/
def State.initial {W : Type} (w : W) : State W :=
  { world := w, trace := [], usb_locks := List.replicate MAX_USB_LOCKS none,
    locksFound := 0, verbose := false, model := 0 }

/-- Perform one libusb call: ask the world, record the event. -/
def call {W : Type} (api : LibUsb W) (s : State W) (c : Call) : Resp × State W :=
  let r := api.step s.world c
  (r.1, { s with world := r.2, trace := s.trace ++ [⟨c, r.1⟩] })

/-- The calls of a trace, answers dropped. -/
def calls (t : List Event) : List Call := t.map Event.call

def Call.isBulkWrite : Call → Bool
  | .usb_bulk_write _ _ _ _ _ => true
  | _ => false

def Call.isBulkRead : Call → Bool
  | .usb_bulk_read _ _ _ _ => true
  | _ => false

def Call.isResetep : Call → Bool
  | .usb_resetep _ _ => true
  | _ => false

/-- The handle a call is made on, when it is made on one. -/
def Call.handle? : Call → Option Handle
  | .usb_close h => some h
  | .usb_reset h => some h
  | .usb_set_configuration h _ => some h
  | .usb_claim_interface h _ => some h
  | .usb_clear_halt h _ => some h
  | .usb_resetep h _ => some h
  | .usb_bulk_write h _ _ _ _ => some h
  | .usb_bulk_read h _ _ _ => some h
  | .usb_get_descriptor h _ _ _ => some h
  | _ => none

/-- The bulk-transport calls `send_query` is built from. -/
def Call.isTransport : Call → Bool
  | .usb_clear_halt _ _ => true
  | .usb_resetep _ _ => true
  | .usb_bulk_write _ _ _ _ _ => true
  | .usb_bulk_read _ _ _ _ => true
  | _ => false

/-- Buffer contents after a read stored `data` at its start: the first
`data.length` bytes are overwritten, the rest keep their old value. -/
def store (buf data : List Char) : List Char :=
  data ++ buf.drop data.length

/-! ## `send_query` (source lines 69-100) -/

/-- `send_query(devHandle, cmd, cmd_len, buf, buf_len)`.  `buf` is `none` for a
`NULL` pointer and `some b` for a buffer currently holding `b`; the result is the
returned `int` and the buffer afterwards. -/
def send_query {W : Type} (api : LibUsb W) (s : State W) (devHandle : Handle)
    (cmd : List Char) (cmd_len : Int) (buf : Option (List Char)) (buf_len : Int) :
    (Int × Option (List Char)) × State W :=
  let r1 := call api s (.usb_clear_halt devHandle BULK_WRITE_ENDPOINT)
  let r2 := call api r1.2 (.usb_bulk_write devHandle BULK_WRITE_ENDPOINT cmd cmd_len DEFAULT_TIMEOUT)
  if r2.1.ret < 0 then
    ((-1, buf), r2.2)
  else
    match buf with
    | none => ((0, none), r2.2)
    | some b =>
      let r3 := call api r2.2 (.usb_clear_halt devHandle BULK_READ_ENDPOINT)
      let r4 := call api r3.2 (.usb_bulk_read devHandle BULK_READ_ENDPOINT buf_len DEFAULT_TIMEOUT)
      if r4.1.ret < 0 then
        let r5 := call api r4.2 (.usb_resetep devHandle BULK_READ_ENDPOINT)
        ((-1, some (store b r4.1.data)), r5.2)
      else
        ((r4.1.ret, some (store b r4.1.data)), r4.2)

/-- The status the bulk write of `send_query` receives when started in `s`. -/
def write_status {W : Type} (api : LibUsb W) (s : State W) (devHandle : Handle)
    (cmd : List Char) (cmd_len : Int) : Int :=
  (call api (call api s (.usb_clear_halt devHandle BULK_WRITE_ENDPOINT)).2
    (.usb_bulk_write devHandle BULK_WRITE_ENDPOINT cmd cmd_len DEFAULT_TIMEOUT)).1.ret

/-- The status the bulk read of `send_query` receives when started in `s` (the
write having succeeded and a buffer being present). -/
def read_status {W : Type} (api : LibUsb W) (s : State W) (devHandle : Handle)
    (cmd : List Char) (cmd_len : Int) (buf_len : Int) : Int :=
  (call api (call api (call api (call api s (.usb_clear_halt devHandle BULK_WRITE_ENDPOINT)).2
    (.usb_bulk_write devHandle BULK_WRITE_ENDPOINT cmd cmd_len DEFAULT_TIMEOUT)).2
    (.usb_clear_halt devHandle BULK_READ_ENDPOINT)).2
    (.usb_bulk_read devHandle BULK_READ_ENDPOINT buf_len DEFAULT_TIMEOUT)).1.ret

/-! ## `connect_to_device` (source lines 103-141) -/

/-- Conversion of an `int` status to the `unsigned int` variable `ret` of
`connect_to_device` (32 bits). -/
def to_unsigned (i : Int) : Nat := (i % 2 ^ 32).toNat

/-- The `bail:` label: `usb_reset`, `usb_close`, `return NULL`. -/
def bail {W : Type} (api : LibUsb W) (s : State W) (devHandle : Handle) : Handle × State W :=
  let r1 := call api s (.usb_reset devHandle)
  let r2 := call api r1.2 (.usb_close devHandle)
  (NULL, r2.2)

/-- `connect_to_device(dev)`.  The local `ret` is an `unsigned int`: the statuses
of `usb_set_configuration` and `usb_claim_interface` are stored in it and
overwritten before anything reads them, the status of `usb_clear_halt` is tested
with `if(ret)`, and the status of `usb_get_descriptor` with `if(ret < 0)`. -/
def connect_to_device {W : Type} (api : LibUsb W) (s : State W) (dev : usb_device) :
    Handle × State W :=
  if dev.idVendor ≠ USB_LOCK_VENDOR ∨ dev.idProduct ≠ USB_LOCK_PRODUCT then
    (NULL, s)
  else
    let r0 := call api s (.usb_open dev)
    let devHandle := r0.1.handle
    if devHandle = NULL then
      (NULL, r0.2)
    else
      let r1 := call api r0.2 (.usb_set_configuration devHandle DEFAULT_CONFIGURATION)
      let _ret : Nat := to_unsigned r1.1.ret
      let r2 := call api r1.2 (.usb_claim_interface devHandle DEFAULT_INTERFACE)
      let _ret : Nat := to_unsigned r2.1.ret
      let r3 := call api r2.2 (.usb_clear_halt devHandle BULK_READ_ENDPOINT)
      let ret : Nat := to_unsigned r3.1.ret
      if ret ≠ 0 then
        bail api r3.2 devHandle
      else
        let r4 := call api r3.2 (.usb_get_descriptor devHandle USB_DT_DEVICE 0x00 0x12)
        let ret : Nat := to_unsigned r4.1.ret
        if ret < 0 then
          bail api r4.2 devHandle
        else
          (devHandle, r4.2)

/-! ## Channel control (source lines 145-201) -/

/-- The `%lf` conversion of the C library, which is outside the repository: the
text it prints for a `double`.  That text is never longer than 317 characters
(a sign, at most 309 integer digits, the point and six decimals). -/
structure Printf_lf where
  conv : Float → List Char
  bounded : ∀ x : Float, (conv x).length ≤ 317

/-- `sprintf(buf, ...)` into a `char buf[size]`, `text` being what the format and
its arguments expand to.  The call stores `text` and a terminating NUL without
any bound check: when they do not fit `size` bytes it writes past the end of
`buf`, which is undefined behaviour, and the result is `none`. -/
def sprintf (size : Nat) (text : List Char) : Option (List Char) :=
  if text.length < size then some text else none

/-- The `%d` conversion of `sprintf`. -/
def fmt_d (i : Int) : List Char := (toString i).toList

/-- `strlen` of a C string, which is modelled without its terminating NUL. -/
def strlen (str : List Char) : Int := str.length

/-- `sprintf(buf, "SOURce%d:FUNCtion:SHAPe %s", channel, waveform)`. -/
def shape_command (channel : Int) (waveform : List Char) : List Char :=
  "SOURce".toList ++ fmt_d channel ++ ":FUNCtion:SHAPe ".toList ++ waveform

/-- `sprintf(buf, "SOURce%d:FREQuency:FIXed %lfHz", channel, frequency)`; `lf` is
the `%lf` conversion of the C library. -/
def frequency_command (lf : Printf_lf) (channel : Int) (frequency : Float) : List Char :=
  "SOURce".toList ++ fmt_d channel ++ ":FREQuency:FIXed ".toList ++ lf.conv frequency ++ "Hz".toList

/-- `sprintf(buf, "SOURce%d:VOLTage:LEVel:IMMediate:AMPLitude %lfVpp", channel, amplidude)`. -/
def amplitude_command (lf : Printf_lf) (channel : Int) (amplidude : Float) : List Char :=
  "SOURce".toList ++ fmt_d channel ++ ":VOLTage:LEVel:IMMediate:AMPLitude ".toList ++
    lf.conv amplidude ++ "Vpp".toList

/-- `sprintf(buf, "SOURce%d:VOLTage:LEVel:IMMediate:OFFset %lfVpp", channel, offset)`. -/
def offset_command (lf : Printf_lf) (channel : Int) (offset : Float) : List Char :=
  "SOURce".toList ++ fmt_d channel ++ ":VOLTage:LEVel:IMMediate:OFFset ".toList ++
    lf.conv offset ++ "Vpp".toList

/-- `sprintf(buf, "OUTPut%d:STATe %s", channel, (state ? "ON": "OFF"))`. -/
def state_command (channel : Int) (state : Int) : List Char :=
  "OUTPut".toList ++ fmt_d channel ++ ":STATe ".toList ++
    (if state ≠ 0 then "ON".toList else "OFF".toList)

/-- `channel_setup(devHandle, channel, waveform, frequency, amplidude, offset)`
with its local `char buf[1024]`, which each of the four `sprintf` calls fills
before the command is sent.  The result is `none` when a `sprintf` overruns
`buf` (undefined behaviour), otherwise the returned `int` and the state. -/
def channel_setup {W : Type} (api : LibUsb W) (lf : Printf_lf) (s : State W)
    (devHandle : Handle) (channel : Int) (waveform : List Char)
    (frequency amplidude offset : Float) : Option (Int × State W) :=
  if devHandle = NULL ∨ channel < 1 ∨ channel > 2 then
    some (0, s)
  else
    -- Shape
    match sprintf 1024 (shape_command channel waveform) with
    | none => none
    | some buf =>
      let r1 := send_query api s devHandle buf (strlen buf) none 0
      if r1.1.1 < 0 then
        some (0, r1.2)
      else
        -- Frequency
        match sprintf 1024 (frequency_command lf channel frequency) with
        | none => none
        | some buf =>
          let r2 := send_query api r1.2 devHandle buf (strlen buf) none 0
          if r2.1.1 < 0 then
            some (0, r2.2)
          else
            -- Amplitude
            match sprintf 1024 (amplitude_command lf channel amplidude) with
            | none => none
            | some buf =>
              let r3 := send_query api r2.2 devHandle buf (strlen buf) none 0
              if r3.1.1 < 0 then
                some (0, r3.2)
              else
                -- Offset
                match sprintf 1024 (offset_command lf channel offset) with
                | none => none
                | some buf =>
                  let r4 := send_query api r3.2 devHandle buf (strlen buf) none 0
                  if r4.1.1 < 0 then
                    some (0, r4.2)
                  else
                    some (1, r4.2)

/-- `channel_set_state(devHandle, channel, state)`. -/
def channel_set_state {W : Type} (api : LibUsb W) (s : State W) (devHandle : Handle)
    (channel : Int) (state : Int) : Int × State W :=
  if devHandle = NULL ∨ channel < 1 ∨ channel > 2 then
    (-1, s)
  else
    let buf := state_command channel state
    let r := send_query api s devHandle buf (strlen buf) none 0
    if r.1.1 < 0 then
      (-1, r.2)
    else
      (0, r.2)

/-- `release_device(devHandle)`: `usb_reset` then `usb_close`. -/
def release_device {W : Type} (api : LibUsb W) (s : State W) (devHandle : Handle) : State W :=
  let r1 := call api s (.usb_reset devHandle)
  let r2 := call api r1.2 (.usb_close devHandle)
  r2.2

/-! ## Bus scan (source lines 39-66) -/

/-- `found_usb_lock(dev)`: `if(locksFound < MAX_USB_LOCKS) usb_locks[locksFound++] = dev;`. -/
def found_usb_lock {W : Type} (s : State W) (dev : usb_device) : State W :=
  if s.locksFound < MAX_USB_LOCKS then
    { s with usb_locks := s.usb_locks.set s.locksFound (some dev),
             locksFound := s.locksFound + 1 }
  else
    s

/-- The inner loop of `devfindOwon`, over the `devices` list of one bus.  On the
first device with the wanted vendor and product it records the device, opens it,
resets the handle it got (whatever `usb_open` returned) and returns the
device. -/
def devfind_devices {W : Type} (api : LibUsb W) : List usb_device → State W →
    Option usb_device × State W
  | [], s => (none, s)
  | dev :: rest, s =>
    if dev.idVendor = USB_LOCK_VENDOR ∧ dev.idProduct = USB_LOCK_PRODUCT then
      let s1 := found_usb_lock s dev
      let r1 := call api s1 (.usb_open dev)
      let dh := r1.1.handle
      let r2 := call api r1.2 (.usb_reset dh)
      (some dev, r2.2)
    else
      devfind_devices api rest s

/-- The outer loop of `devfindOwon`, over the `usb_busses` list. -/
def devfind_busses {W : Type} (api : LibUsb W) : List usb_bus → State W →
    Option usb_device × State W
  | [], s => (none, s)
  | bus :: rest, s =>
    match devfind_devices api bus.devices s with
    | (some dev, s1) => (some dev, s1)
    | (none, s1) => devfind_busses api rest s1

/-- `devfindOwon()`: the result is `none` for `NULL`. -/
def devfindOwon {W : Type} (api : LibUsb W) (s : State W) : Option usb_device × State W :=
  let r1 := call api s .usb_find_busses
  let r2 := call api r1.2 .usb_find_devices
  devfind_busses api (api.usb_busses r2.2.world) r2.2

/-- The state after `n` successive scans. -/
def scans {W : Type} (api : LibUsb W) : Nat → State W → State W
  | 0, s => s
  | n + 1, s => (devfindOwon api (scans api n s)).2

/-! ## `main` (source lines 204-271) -/

/-- `memcmp(a, b, n)`, as far as the program looks at it: 0 when the first `n`
bytes agree, nonzero otherwise. -/
def memcmp (a b : List Char) (n : Nat) : Int :=
  if a.take n = b.take n then 0 else 1

/-- The `for(int i = 0; i < locksFound; i++)` loop of `main`, with `n`
iterations left to run, started at index `i`.  `garbage i` is the indeterminate
content of the fresh `char buf[256]` in iteration `i`; `devHandle` is the value
of the variable on entry.  The result is `devHandle` after the loop and the
state, or `none` when `usb_locks[0]` is `NULL` and the program dereferences
it. -/
def main_loop {W : Type} (api : LibUsb W) (garbage : Nat → List Char) :
    Nat → Nat → Handle → State W → Option (Handle × State W)
  | 0, _, devHandle, s => some (devHandle, s)
  | n + 1, i, _, s =>
    match s.usb_locks.head? with
    | some (some dev) =>
      let c := connect_to_device api s dev
      if c.1 = NULL then
        main_loop api garbage n (i + 1) NULL c.2
      else
        let q := send_query api c.2 c.1 OWON_IDN_QUERY (OWON_IDN_QUERY.length + 1)
          (some (garbage i)) 256
        let buf := q.1.2.getD []
        if q.1.1 > 0 then
          if memcmp buf OWON_IDN_WANTED_35 OWON_IDN_WANTED_35.length = 0 then
            some (c.1, { q.2 with model := 2035 })
          else if memcmp buf OWON_IDN_WANTED_70 OWON_IDN_WANTED_70.length = 0 then
            some (c.1, { q.2 with model := 2070 })
          else
            main_loop api garbage n (i + 1) NULL (release_device api q.2 c.1)
        else
          main_loop api garbage n (i + 1) NULL (release_device api q.2 c.1)
    | _ => none

/-- `main(argc, argv)`: `v` says whether `argv[1]` is `-v`, `lf` is the `%lf`
conversion, `garbage` and `devHandle0` are the indeterminate initial contents of
the locals `buf` and `devHandle`.  The result is the exit status and the final
state, or `none` when the program dereferences a `NULL` device or overruns a
command buffer. -/
def main {W : Type} (api : LibUsb W) (lf : Printf_lf) (v : Bool)
    (garbage : Nat → List Char) (devHandle0 : Handle) (w : W) : Option (Int × State W) :=
  let s0 : State W := { State.initial w with verbose := v }
  let r0 := call api s0 .usb_init
  let f := devfindOwon api r0.2
  match f.1 with
  | none => some (3, f.2)
  | some _ =>
    match main_loop api garbage f.2.locksFound 0 devHandle0 f.2 with
    | none => none
    | some (devHandle, s) =>
      if devHandle = NULL then
        some (3, s)
      else
        let a1 := channel_set_state api s devHandle 1 0
        let a2 := channel_set_state api a1.2 devHandle 2 0
        match channel_setup api lf a2.2 devHandle 1 "SINE".toList 500000.0 1.000 0.000 with
        | none => none
        | some b1 =>
          match channel_setup api lf b1.2 devHandle 2 "SQUARE".toList 500000.0 1.000 0.000 with
          | none => none
          | some b2 =>
            let c1 := channel_set_state api b2.2 devHandle 1 1
            let c2 := channel_set_state api c1.2 devHandle 2 1
            let d1 := channel_set_state api c2.2 devHandle 1 0
            let d2 := channel_set_state api d1.2 devHandle 2 0
            some (0, release_device api d2.2 devHandle)

/-! ## Test doubles used by the concrete instances -/

/-- A libusb double over a counter world: the `n`-th call (from 0) is answered
by `script n`, and the bus list never changes. -/
def scripted (script : Nat → Call → Resp) (busses : List usb_bus) : LibUsb Nat :=
  { step := fun n c => (script n c, n + 1), usb_busses := fun _ => busses }

/-- The answer with status `r`, handle `7` and no data. -/
def okResp (r : Int) : Resp := ⟨r, 7, []⟩

/-- A `%lf` double that prints "1.000000" for every value. -/
def lfFixed : Printf_lf :=
  ⟨fun _ => "1.000000".toList, fun _ => (by decide : "1.000000".toList.length ≤ 317)⟩

/-! ## Trace vocabulary for the statements -/

/-- The events `send_query` appends when the write fails or no buffer is given. -/
def write_events {W : Type} (api : LibUsb W) (s : State W) (h : Handle)
    (cmd : List Char) (cmd_len : Int) : List Event :=
  [⟨.usb_clear_halt h BULK_WRITE_ENDPOINT,
      (call api s (.usb_clear_halt h BULK_WRITE_ENDPOINT)).1⟩,
   ⟨.usb_bulk_write h BULK_WRITE_ENDPOINT cmd cmd_len DEFAULT_TIMEOUT,
      (call api (call api s (.usb_clear_halt h BULK_WRITE_ENDPOINT)).2
        (.usb_bulk_write h BULK_WRITE_ENDPOINT cmd cmd_len DEFAULT_TIMEOUT)).1⟩]

/-- The events `send_query` appends after a successful write when a buffer is
given: clear-halt on the read endpoint and the bulk read. -/
def read_events {W : Type} (api : LibUsb W) (s : State W) (h : Handle)
    (cmd : List Char) (cmd_len : Int) (buf_len : Int) : List Event :=
  let s2 := (call api (call api s (.usb_clear_halt h BULK_WRITE_ENDPOINT)).2
    (.usb_bulk_write h BULK_WRITE_ENDPOINT cmd cmd_len DEFAULT_TIMEOUT)).2
  [⟨.usb_clear_halt h BULK_READ_ENDPOINT, (call api s2 (.usb_clear_halt h BULK_READ_ENDPOINT)).1⟩,
   ⟨.usb_bulk_read h BULK_READ_ENDPOINT buf_len DEFAULT_TIMEOUT,
      (call api (call api s2 (.usb_clear_halt h BULK_READ_ENDPOINT)).2
        (.usb_bulk_read h BULK_READ_ENDPOINT buf_len DEFAULT_TIMEOUT)).1⟩]

/-- The event of the endpoint reset `send_query` issues after a failed read. -/
def resetep_event {W : Type} (api : LibUsb W) (s : State W) (h : Handle)
    (cmd : List Char) (cmd_len : Int) (buf_len : Int) : Event :=
  let s2 := (call api (call api s (.usb_clear_halt h BULK_WRITE_ENDPOINT)).2
    (.usb_bulk_write h BULK_WRITE_ENDPOINT cmd cmd_len DEFAULT_TIMEOUT)).2
  let s4 := (call api (call api s2 (.usb_clear_halt h BULK_READ_ENDPOINT)).2
        (.usb_bulk_read h BULK_READ_ENDPOINT buf_len DEFAULT_TIMEOUT)).2
  ⟨.usb_resetep h BULK_READ_ENDPOINT, (call api s4 (.usb_resetep h BULK_READ_ENDPOINT)).1⟩

/-- A double that fails every bulk read with -1 and answers 0 to everything
else. -/
def readFails : LibUsb Nat :=
  scripted (fun _ c => if c.isBulkRead then okResp (-1) else okResp 0) []

/-- A double on which `usb_open` yields handle 7 and `usb_clear_halt` answers 0,
while every other call (set configuration, claim interface, read descriptor,
...) reports the error -1. -/
def stepsFail : LibUsb Nat :=
  scripted (fun _ c =>
    match c with
    | .usb_open _ => okResp 0
    | .usb_clear_halt _ _ => okResp 0
    | _ => okResp (-1)) []

/-- What `channel_setup` returns once all four `sprintf` calls are known to stay
inside `buf` (a device for the proofs, see `channel_setup_eq_fit`). -/
def channel_setup_fit {W : Type} (api : LibUsb W) (lf : Printf_lf) (s : State W)
    (devHandle : Handle) (channel : Int) (waveform : List Char)
    (frequency amplidude offset : Float) : Int × State W :=
  if devHandle = NULL ∨ channel < 1 ∨ channel > 2 then
    (0, s)
  else
    -- Shape
    let buf := shape_command channel waveform
    let r1 := send_query api s devHandle buf (strlen buf) none 0
    if r1.1.1 < 0 then
      (0, r1.2)
    else
      -- Frequency
      let buf := frequency_command lf channel frequency
      let r2 := send_query api r1.2 devHandle buf (strlen buf) none 0
      if r2.1.1 < 0 then
        (0, r2.2)
      else
        -- Amplitude
        let buf := amplitude_command lf channel amplidude
        let r3 := send_query api r2.2 devHandle buf (strlen buf) none 0
        if r3.1.1 < 0 then
          (0, r3.2)
        else
          -- Offset
          let buf := offset_command lf channel offset
          let r4 := send_query api r3.2 devHandle buf (strlen buf) none 0
          if r4.1.1 < 0 then
            (0, r4.2)
          else
            (1, r4.2)

/-- The four commands of `channel_setup`, in the order the source sends them:
shape, frequency, amplitude, offset. -/
def setup_commands (lf : Printf_lf) (channel : Int) (waveform : List Char)
    (frequency amplidude offset : Float) : List (List Char) :=
  [shape_command channel waveform, frequency_command lf channel frequency,
   amplitude_command lf channel amplidude, offset_command lf channel offset]

/-- The calls of one exchange without response buffer. -/
def exchange_calls (h : Handle) (cmd : List Char) : List Call :=
  [.usb_clear_halt h BULK_WRITE_ENDPOINT,
   .usb_bulk_write h BULK_WRITE_ENDPOINT cmd (strlen cmd) DEFAULT_TIMEOUT]

/-- The state after the two calls of an exchange without response buffer. -/
def after_write {W : Type} (api : LibUsb W) (s : State W) (h : Handle) (cmd : List Char) :
    State W :=
  (call api (call api s (.usb_clear_halt h BULK_WRITE_ENDPOINT)).2
    (.usb_bulk_write h BULK_WRITE_ENDPOINT cmd (strlen cmd) DEFAULT_TIMEOUT)).2

/-- A waveform of 2000 bytes: with the 23 bytes before it and the terminating
NUL the shape command needs 2024 bytes. -/
def longWaveform : List Char := List.replicate 2000 'A'

/-- Two devices with the wanted vendor and product on one bus. -/
def twoOwons : List usb_bus :=
  [⟨"001".toList, [⟨0x5345, 0x1234, 1⟩, ⟨0x5345, 0x1234, 2⟩]⟩]

/-- The scanner invariant: at most `MAX_USB_LOCKS` candidates, the array keeps
its `MAX_USB_LOCKS` slots, and every recorded slot holds a device with the
wanted vendor and product. -/
def LocksInv {W : Type} (s : State W) : Prop :=
  s.locksFound ≤ MAX_USB_LOCKS ∧ s.usb_locks.length = MAX_USB_LOCKS ∧
  ∀ i, i < s.locksFound → ∃ d, s.usb_locks[i]? = some (some d) ∧
    d.idVendor = USB_LOCK_VENDOR ∧ d.idProduct = USB_LOCK_PRODUCT

/-- One bus with a single matching device. -/
def oneOwon : List usb_bus := [⟨"001".toList, [⟨0x5345, 0x1234, 1⟩]⟩]

/-- A double whose bulk read delivers the one-byte response "O" (status 1) and
whose other calls answer 0 with handle 7. -/
def shortReply : LibUsb Nat :=
  scripted (fun _ c => if c.isBulkRead then ⟨1, 7, "O".toList⟩ else okResp 0) oneOwon

/-- A 256-byte buffer whose stale content starts with the DGE2035 signature. -/
def staleBuffer : List Char := OWON_IDN_WANTED_35 ++ List.replicate 243 'x'

/-- From `s` to `t` the program only appended bulk-transport calls made on the
handle `h`. -/
def OnlyTransport {W : Type} (h : Handle) (s t : State W) : Prop :=
  ∃ new : List Event, t.trace = s.trace ++ new ∧
    ∀ e ∈ new, e.call.isTransport = true ∧ e.call.handle? = some h

/-- The shape of a trace tail in which the session `h` is used and then released
exactly once: bulk-transport calls on `h`, then `usb_reset h`, `usb_close h`,
and nothing after. -/
def ReleasedOnce (h : Handle) (tail : List Call) : Prop :=
  (∃ pre : List Call, tail = pre ++ [.usb_reset h, .usb_close h] ∧
    ∀ c ∈ pre, c.isTransport = true ∧ c.handle? = some h) ∧
  tail.count (.usb_reset h) = 1 ∧ tail.count (.usb_close h) = 1

/-- A double with one matching device whose every call answers 0 with handle 7:
the identity read delivers nothing. -/
def idleOwon : LibUsb Nat := scripted (fun _ _ => okResp 0) oneOwon

/-! ## Theorems -/

theorem call_trace {W : Type} (api : LibUsb W) (s : State W) (c : Call) :
    (call api s c).2.trace = s.trace ++ [⟨c, (call api s c).1⟩] := rfl

theorem send_query_of_write_neg {W : Type} (api : LibUsb W) (s : State W) (h : Handle)
    (cmd : List Char) (cmd_len : Int) (buf : Option (List Char)) (buf_len : Int)
    (hw : write_status api s h cmd cmd_len < 0) :
    send_query api s h cmd cmd_len buf buf_len =
      ((-1, buf), (call api (call api s (.usb_clear_halt h BULK_WRITE_ENDPOINT)).2
        (.usb_bulk_write h BULK_WRITE_ENDPOINT cmd cmd_len DEFAULT_TIMEOUT)).2) := by
  unfold write_status at hw
  simp only [send_query, if_pos hw]

theorem send_query_of_null {W : Type} (api : LibUsb W) (s : State W) (h : Handle)
    (cmd : List Char) (cmd_len : Int) (buf_len : Int)
    (hw : 0 ≤ write_status api s h cmd cmd_len) :
    send_query api s h cmd cmd_len none buf_len =
      ((0, none), (call api (call api s (.usb_clear_halt h BULK_WRITE_ENDPOINT)).2
        (.usb_bulk_write h BULK_WRITE_ENDPOINT cmd cmd_len DEFAULT_TIMEOUT)).2) := by
  unfold write_status at hw
  simp only [send_query, if_neg (not_lt.mpr hw)]

theorem write_trace {W : Type} (api : LibUsb W) (s : State W) (h : Handle)
    (cmd : List Char) (cmd_len : Int) :
    (call api (call api s (.usb_clear_halt h BULK_WRITE_ENDPOINT)).2
        (.usb_bulk_write h BULK_WRITE_ENDPOINT cmd cmd_len DEFAULT_TIMEOUT)).2.trace =
      s.trace ++ write_events api s h cmd cmd_len := by
  simp only [call_trace, write_events, List.append_assoc, List.singleton_append]

/-- C2. If the bulk write of `send_query` gets a negative status, `send_query`
returns -1 and the calls it made are exactly a clear-halt on the write endpoint
followed by one bulk write: no clear-halt on the read endpoint, no bulk read, no
endpoint reset, and exactly one bulk write. -/
theorem send_query_write_failed {W : Type} (api : LibUsb W) (s : State W) (h : Handle)
    (cmd : List Char) (cmd_len : Int) (buf : Option (List Char)) (buf_len : Int)
    (hw : write_status api s h cmd cmd_len < 0) :
    (send_query api s h cmd cmd_len buf buf_len).1.1 = -1 ∧
    ∃ new : List Event,
      (send_query api s h cmd cmd_len buf buf_len).2.trace = s.trace ++ new ∧
      calls new = [.usb_clear_halt h BULK_WRITE_ENDPOINT,
                   .usb_bulk_write h BULK_WRITE_ENDPOINT cmd cmd_len DEFAULT_TIMEOUT] ∧
      Call.usb_clear_halt h BULK_READ_ENDPOINT ∉ calls new ∧
      (∀ c ∈ calls new, c.isBulkRead = false ∧ c.isResetep = false) ∧
      ((calls new).filter Call.isBulkWrite).length = 1 := by
  rw [send_query_of_write_neg api s h cmd cmd_len buf buf_len hw]
  refine ⟨rfl, write_events api s h cmd cmd_len, write_trace api s h cmd cmd_len, ?_⟩
  simp [calls, write_events, Call.isBulkRead, Call.isResetep, Call.isBulkWrite,
    BULK_READ_ENDPOINT, BULK_WRITE_ENDPOINT]

/-- C2 at a concrete input: a double whose every call answers -1. -/
theorem send_query_write_failed_witness :
    write_status (scripted (fun _ _ => okResp (-1)) []) (State.initial 0) 7 OWON_IDN_QUERY 6 < 0 ∧
    (send_query (scripted (fun _ _ => okResp (-1)) []) (State.initial 0) 7 OWON_IDN_QUERY 6
      (some []) 256).1.1 = -1 ∧
    calls (send_query (scripted (fun _ _ => okResp (-1)) []) (State.initial 0) 7 OWON_IDN_QUERY 6
      (some []) 256).2.trace =
      [.usb_clear_halt 7 BULK_WRITE_ENDPOINT,
       .usb_bulk_write 7 BULK_WRITE_ENDPOINT OWON_IDN_QUERY 6 DEFAULT_TIMEOUT] := by
  obtain ⟨h1, new, h2, h3, _⟩ :=
    send_query_write_failed (scripted (fun _ _ => okResp (-1)) []) (State.initial 0) 7
      OWON_IDN_QUERY 6 (some []) 256 (by decide)
  refine ⟨by decide, h1, ?_⟩
  rw [h2, ← h3]
  rfl

theorem send_query_read_neg {W : Type} (api : LibUsb W) (s : State W) (h : Handle)
    (cmd : List Char) (cmd_len : Int) (b : List Char) (buf_len : Int)
    (hw : 0 ≤ write_status api s h cmd cmd_len)
    (hr : read_status api s h cmd cmd_len buf_len < 0) :
    (send_query api s h cmd cmd_len (some b) buf_len).1.1 = -1 ∧
    (send_query api s h cmd cmd_len (some b) buf_len).2.trace =
      s.trace ++ (write_events api s h cmd cmd_len ++ read_events api s h cmd cmd_len buf_len
        ++ [resetep_event api s h cmd cmd_len buf_len]) := by
  unfold write_status at hw
  unfold read_status at hr
  simp only [send_query, if_neg (not_lt.mpr hw), if_pos hr, call_trace, write_events,
    read_events, resetep_event, List.append_assoc, List.singleton_append, List.cons_append,
    List.nil_append, and_self]

theorem send_query_read_ok {W : Type} (api : LibUsb W) (s : State W) (h : Handle)
    (cmd : List Char) (cmd_len : Int) (b : List Char) (buf_len : Int)
    (hw : 0 ≤ write_status api s h cmd cmd_len)
    (hr : 0 ≤ read_status api s h cmd cmd_len buf_len) :
    (send_query api s h cmd cmd_len (some b) buf_len).1.1 =
      read_status api s h cmd cmd_len buf_len ∧
    (send_query api s h cmd cmd_len (some b) buf_len).2.trace =
      s.trace ++ (write_events api s h cmd cmd_len ++ read_events api s h cmd cmd_len buf_len) := by
  unfold write_status at hw
  have hr2 := hr
  unfold read_status at hr2
  simp only [send_query, if_neg (not_lt.mpr hw), if_neg (not_lt.mpr hr2), call_trace,
    write_events, read_events, read_status, List.append_assoc, List.singleton_append,
    List.cons_append, List.nil_append, and_self]

/-- C3, as stated, fails: with a non-NULL buffer pointer and `buf_len = 0` the
write succeeds, yet a bulk read (of size 0) is issued, here followed by an
endpoint reset, and the result is -1, not 0. -/
theorem send_query_zero_capacity_reads :
    0 ≤ write_status readFails (State.initial 0) 7 OWON_IDN_QUERY 6 ∧
    Call.usb_bulk_read 7 BULK_READ_ENDPOINT 0 DEFAULT_TIMEOUT ∈
      calls (send_query readFails (State.initial 0) 7 OWON_IDN_QUERY 6 (some []) 0).2.trace ∧
    (send_query readFails (State.initial 0) 7 OWON_IDN_QUERY 6 (some []) 0).1.1 = -1 := by
  decide

/-- C3 (amended). When the buffer pointer is NULL and the bulk write succeeds,
`send_query` returns 0 with no buffer, whatever `buf_len` is, and the calls it
made are exactly the clear-halt on the write endpoint and the bulk write: no
bulk read is issued. -/
theorem send_query_null_buffer {W : Type} (api : LibUsb W) (s : State W) (h : Handle)
    (cmd : List Char) (cmd_len : Int) (buf_len : Int)
    (hw : 0 ≤ write_status api s h cmd cmd_len) :
    (send_query api s h cmd cmd_len none buf_len).1 = (0, none) ∧
    ∃ new : List Event,
      (send_query api s h cmd cmd_len none buf_len).2.trace = s.trace ++ new ∧
      calls new = [.usb_clear_halt h BULK_WRITE_ENDPOINT,
                   .usb_bulk_write h BULK_WRITE_ENDPOINT cmd cmd_len DEFAULT_TIMEOUT] ∧
      (∀ c ∈ calls new, c.isBulkRead = false) := by
  rw [send_query_of_null api s h cmd cmd_len buf_len hw]
  refine ⟨rfl, write_events api s h cmd cmd_len, write_trace api s h cmd cmd_len, ?_⟩
  simp [calls, write_events, Call.isBulkRead]

/-- C3 (amended) at a concrete input: NULL buffer, `buf_len = 5`, every call
answering 0. -/
theorem send_query_null_buffer_witness :
    0 ≤ write_status (scripted (fun _ _ => okResp 0) []) (State.initial 0) 7 OWON_IDN_QUERY 6 ∧
    (send_query (scripted (fun _ _ => okResp 0) []) (State.initial 0) 7 OWON_IDN_QUERY 6
      none 5).1 = (0, none) :=
  ⟨by decide,
   (send_query_null_buffer (scripted (fun _ _ => okResp 0) []) (State.initial 0) 7
      OWON_IDN_QUERY 6 5 (by decide)).1⟩

/-- C4. When the write succeeds and a response buffer is given: if the bulk read
gets a negative status, `send_query` returns -1 and its calls are clear-halt and
write, clear-halt and one read on endpoint 0x81, then exactly one `usb_resetep`
on endpoint 0x81 (no second read); if the read gets `n >= 0`, `send_query`
returns `n` and its calls are the same four with no endpoint reset. -/
theorem send_query_read_outcome {W : Type} (api : LibUsb W) (s : State W) (h : Handle)
    (cmd : List Char) (cmd_len : Int) (b : List Char) (buf_len : Int)
    (hw : 0 ≤ write_status api s h cmd cmd_len) :
    ∃ new : List Event,
      (send_query api s h cmd cmd_len (some b) buf_len).2.trace = s.trace ++ new ∧
      ((calls new).filter Call.isBulkWrite).length = 1 ∧
      ((calls new).filter Call.isBulkRead).length = 1 ∧
      (read_status api s h cmd cmd_len buf_len < 0 →
        (send_query api s h cmd cmd_len (some b) buf_len).1.1 = -1 ∧
        calls new = [.usb_clear_halt h BULK_WRITE_ENDPOINT,
                     .usb_bulk_write h BULK_WRITE_ENDPOINT cmd cmd_len DEFAULT_TIMEOUT,
                     .usb_clear_halt h BULK_READ_ENDPOINT,
                     .usb_bulk_read h BULK_READ_ENDPOINT buf_len DEFAULT_TIMEOUT,
                     .usb_resetep h 0x81] ∧
        ((calls new).filter Call.isResetep).length = 1) ∧
      (0 ≤ read_status api s h cmd cmd_len buf_len →
        (send_query api s h cmd cmd_len (some b) buf_len).1.1 =
          read_status api s h cmd cmd_len buf_len ∧
        calls new = [.usb_clear_halt h BULK_WRITE_ENDPOINT,
                     .usb_bulk_write h BULK_WRITE_ENDPOINT cmd cmd_len DEFAULT_TIMEOUT,
                     .usb_clear_halt h BULK_READ_ENDPOINT,
                     .usb_bulk_read h BULK_READ_ENDPOINT buf_len DEFAULT_TIMEOUT] ∧
        (∀ c ∈ calls new, c.isResetep = false)) := by
  by_cases hr : read_status api s h cmd cmd_len buf_len < 0
  · obtain ⟨h1, h2⟩ := send_query_read_neg api s h cmd cmd_len b buf_len hw hr
    refine ⟨_, h2, ?_, ?_, fun _ => ⟨h1, ?_, ?_⟩, fun h0 => absurd hr (not_lt.mpr h0)⟩ <;>
      simp [calls, write_events, read_events, resetep_event, Call.isBulkWrite, Call.isBulkRead,
        Call.isResetep, BULK_READ_ENDPOINT]
  · have hr0 := not_lt.mp hr
    obtain ⟨h1, h2⟩ := send_query_read_ok api s h cmd cmd_len b buf_len hw hr0
    refine ⟨_, h2, ?_, ?_, fun h0 => absurd h0 hr, fun _ => ⟨h1, ?_, ?_⟩⟩ <;>
      simp [calls, write_events, read_events, Call.isBulkWrite, Call.isBulkRead,
        Call.isResetep]

/-- C4 at a concrete input: the read fails with -1 on the double `readFails`. -/
theorem send_query_read_outcome_witness :
    0 ≤ write_status readFails (State.initial 0) 7 OWON_IDN_QUERY 6 ∧
    ∃ new : List Event,
      (send_query readFails (State.initial 0) 7 OWON_IDN_QUERY 6 (some []) 256).2.trace =
        (State.initial 0).trace ++ new ∧
      ((calls new).filter Call.isBulkRead).length = 1 :=
  ⟨by decide,
   (send_query_read_outcome readFails (State.initial 0) 7 OWON_IDN_QUERY 6 [] 256
      (by decide)).imp fun _ hn => ⟨hn.1, hn.2.2.1⟩⟩

/-- C1 (code defect). For a matching device whose handle opens, with
`usb_set_configuration`, `usb_claim_interface` and `usb_get_descriptor` all
reporting the error -1 and only `usb_clear_halt` succeeding, `connect_to_device`
still returns the handle (7, not NULL) and calls neither `usb_reset` nor
`usb_close`. -/
theorem connect_to_device_ignores_step_errors :
    (connect_to_device stepsFail (State.initial 0) ⟨0x5345, 0x1234, 1⟩).1 = 7 ∧
    calls (connect_to_device stepsFail (State.initial 0) ⟨0x5345, 0x1234, 1⟩).2.trace =
      [.usb_open ⟨0x5345, 0x1234, 1⟩,
       .usb_set_configuration 7 1,
       .usb_claim_interface 7 0,
       .usb_clear_halt 7 0x81,
       .usb_get_descriptor 7 1 0 0x12] ∧
    ((connect_to_device stepsFail (State.initial 0) ⟨0x5345, 0x1234, 1⟩).2.trace.map
      fun e => e.resp.ret) = [0, -1, -1, 0, -1] := by
  decide

/-- C7. With a NULL session handle or a channel outside {1,2} (any `int`),
`channel_set_state` returns -1 and `channel_setup` returns 0, both leaving the
state, trace included, untouched: no USB call is made.  With a non-NULL handle
and a channel in {1,2}, `channel_set_state` makes exactly the two calls of one
exchange without response buffer (clear-halt on the write endpoint, one bulk
write of the state command), returns 0 when the write status is non-negative
and -1 otherwise. -/
theorem channel_precondition {W : Type} (api : LibUsb W) (lf : Printf_lf)
    (s : State W) (h : Handle) (channel state : Int) (waveform : List Char)
    (frequency amplidude offset : Float) :
    ((h = NULL ∨ ¬ (channel = 1 ∨ channel = 2)) →
      channel_set_state api s h channel state = (-1, s) ∧
      channel_setup api lf s h channel waveform frequency amplidude offset = some (0, s)) ∧
    (h ≠ NULL ∧ (channel = 1 ∨ channel = 2) →
      ∃ new : List Event,
        (channel_set_state api s h channel state).2.trace = s.trace ++ new ∧
        calls new = [.usb_clear_halt h BULK_WRITE_ENDPOINT,
                     .usb_bulk_write h BULK_WRITE_ENDPOINT (state_command channel state)
                       (strlen (state_command channel state)) DEFAULT_TIMEOUT] ∧
        ((channel_set_state api s h channel state).1 = 0 ↔
          0 ≤ write_status api s h (state_command channel state)
                (strlen (state_command channel state))) ∧
        ((channel_set_state api s h channel state).1 = 0 ∨
          (channel_set_state api s h channel state).1 = -1)) := by
  constructor
  · intro hbad
    have hg : h = NULL ∨ channel < 1 ∨ channel > 2 := by
      rcases hbad with hn | hc
      · exact Or.inl hn
      · right
        by_contra hcon
        push_neg at hcon
        exact hc (by omega)
    simp only [channel_set_state, channel_setup, if_pos hg, and_self]
  · rintro ⟨hn, hc⟩
    have hg : ¬ (h = NULL ∨ channel < 1 ∨ channel > 2) := by
      rintro (h0 | h1 | h2)
      · exact hn h0
      · omega
      · omega
    by_cases hw : write_status api s h (state_command channel state)
        (strlen (state_command channel state)) < 0
    · refine ⟨write_events api s h (state_command channel state)
        (strlen (state_command channel state)), ?_, ?_, ?_, ?_⟩
      · simp only [channel_set_state, if_neg hg, send_query_of_write_neg _ _ _ _ _ _ _ hw]
        simp only [Int.reduceNeg, Left.neg_neg_iff, zero_lt_one, if_true, write_trace]
      · simp [calls, write_events]
      · simp only [channel_set_state, if_neg hg, send_query_of_write_neg _ _ _ _ _ _ _ hw]
        simp only [Int.reduceNeg, Left.neg_neg_iff, zero_lt_one, if_true]
        constructor
        · intro hcon
          exact absurd hcon (by decide)
        · intro hcon
          exact absurd hw (not_lt.mpr hcon)
      · right
        simp only [channel_set_state, if_neg hg, send_query_of_write_neg _ _ _ _ _ _ _ hw]
        simp only [Int.reduceNeg, Left.neg_neg_iff, zero_lt_one, if_true]
    · have hw0 := not_lt.mp hw
      refine ⟨write_events api s h (state_command channel state)
        (strlen (state_command channel state)), ?_, ?_, ?_, ?_⟩
      · simp only [channel_set_state, if_neg hg, send_query_of_null _ _ _ _ _ _ hw0]
        simp only [lt_self_iff_false, if_false, write_trace]
      · simp [calls, write_events]
      · simp only [channel_set_state, if_neg hg, send_query_of_null _ _ _ _ _ _ hw0]
        simp only [lt_self_iff_false, if_false, true_iff]
        exact hw0
      · left
        simp only [channel_set_state, if_neg hg, send_query_of_null _ _ _ _ _ _ hw0]
        simp only [lt_self_iff_false, if_false]

/-- C7 at concrete inputs: channel 3 is rejected without any call, and channel 1
on handle 7 produces one exchange. -/
theorem channel_precondition_witness :
    (channel_set_state (scripted (fun _ _ => okResp 0) []) (State.initial 0) 7 3 1 =
        (-1, State.initial 0) ∧
      channel_setup (scripted (fun _ _ => okResp 0) []) lfFixed (State.initial 0) 7 3
        "SINE".toList 0 0 0 = some (0, State.initial 0)) ∧
    ∃ new : List Event,
      (channel_set_state (scripted (fun _ _ => okResp 0) []) (State.initial 0) 7 1 1).2.trace =
        (State.initial 0).trace ++ new ∧
      calls new = [.usb_clear_halt 7 BULK_WRITE_ENDPOINT,
                   .usb_bulk_write 7 BULK_WRITE_ENDPOINT (state_command 1 1)
                     (strlen (state_command 1 1)) DEFAULT_TIMEOUT] :=
  ⟨(channel_precondition (scripted (fun _ _ => okResp 0) []) lfFixed (State.initial 0)
      7 3 1 "SINE".toList 0 0 0).1 (Or.inr (by decide)),
   ((channel_precondition (scripted (fun _ _ => okResp 0) []) lfFixed (State.initial 0)
      7 1 1 "SINE".toList 0 0 0).2 ⟨by decide, Or.inl rfl⟩).imp fun _ hn => ⟨hn.1, hn.2.1⟩⟩

theorem send_query_none {W : Type} (api : LibUsb W) (s : State W) (h : Handle)
    (cmd : List Char) (buf_len : Int) :
    send_query api s h cmd (strlen cmd) none buf_len =
      ((if write_status api s h cmd (strlen cmd) < 0 then -1 else 0, none),
        after_write api s h cmd) := by
  by_cases hw : write_status api s h cmd (strlen cmd) < 0
  · rw [send_query_of_write_neg api s h cmd _ none buf_len hw, if_pos hw]
    rfl
  · rw [send_query_of_null api s h cmd _ buf_len (not_lt.mp hw), if_neg hw]
    rfl

theorem ite_status_neg (c : Prop) [Decidable c] :
    ((if c then (-1 : Int) else 0) < 0) ↔ c := by
  by_cases hc : c <;> simp [hc]

theorem after_write_trace {W : Type} (api : LibUsb W) (s : State W) (h : Handle)
    (cmd : List Char) :
    (after_write api s h cmd).trace = s.trace ++ write_events api s h cmd (strlen cmd) :=
  write_trace api s h cmd (strlen cmd)

theorem calls_write_events {W : Type} (api : LibUsb W) (s : State W) (h : Handle)
    (cmd : List Char) :
    calls (write_events api s h cmd (strlen cmd)) = exchange_calls h cmd := rfl

theorem calls_append (a b : List Event) : calls (a ++ b) = calls a ++ calls b := by
  simp [calls]

/-- Every bulk write among the events of one exchange has the exchange's write
status. -/
theorem write_events_status {W : Type} (api : LibUsb W) (s : State W) (h : Handle)
    (cmd : List Char) (e : Event) (he : e ∈ write_events api s h cmd (strlen cmd))
    (hb : e.call.isBulkWrite = true) :
    e.resp.ret = write_status api s h cmd (strlen cmd) := by
  simp only [write_events, List.mem_cons, List.mem_singleton, List.not_mem_nil, or_false] at he
  rcases he with rfl | rfl
  · simp [Call.isBulkWrite] at hb
  · rfl

theorem write_events_getLast {W : Type} (api : LibUsb W) (s : State W) (h : Handle)
    (cmd : List Char) (pre : List Event) :
    ∃ e, (pre ++ write_events api s h cmd (strlen cmd)).getLast? = some e ∧
      e.call.isBulkWrite = true ∧ e.resp.ret = write_status api s h cmd (strlen cmd) := by
  refine ⟨⟨.usb_bulk_write h BULK_WRITE_ENDPOINT cmd (strlen cmd) DEFAULT_TIMEOUT,
      (call api (call api s (.usb_clear_halt h BULK_WRITE_ENDPOINT)).2
        (.usb_bulk_write h BULK_WRITE_ENDPOINT cmd (strlen cmd) DEFAULT_TIMEOUT)).1⟩, ?_, rfl, rfl⟩
  simp only [write_events]
  rw [List.getLast?_append]
  rfl

theorem write_events_dropLast {W : Type} (api : LibUsb W) (s : State W) (h : Handle)
    (cmd : List Char) (pre : List Event) (e : Event)
    (he : e ∈ (pre ++ write_events api s h cmd (strlen cmd)).dropLast)
    (hb : e.call.isBulkWrite = true) : e ∈ pre := by
  simp only [write_events] at he
  rw [List.dropLast_append_of_ne_nil _ (by simp)] at he
  simp only [List.dropLast_cons₂, List.dropLast_single, List.mem_append, List.mem_singleton] at he
  rcases he with he | rfl
  · exact he
  · simp [Call.isBulkWrite] at hb

/-- The call sequence and result of `channel_setup_fit`. -/
theorem channel_setup_fit_sequence {W : Type} (api : LibUsb W) (lf : Printf_lf)
    (s : State W) (h : Handle) (channel : Int) (waveform : List Char)
    (frequency amplidude offset : Float)
    (hh : h ≠ NULL) (hc : channel = 1 ∨ channel = 2) :
    ∃ (k : Nat) (new : List Event), 1 ≤ k ∧ k ≤ 4 ∧
      (channel_setup_fit api lf s h channel waveform frequency amplidude offset).2.trace =
        s.trace ++ new ∧
      calls new =
        ((setup_commands lf channel waveform frequency amplidude offset).take k).flatMap
          (exchange_calls h) ∧
      (∀ c ∈ calls new, c.isBulkRead = false) ∧
      (∀ e ∈ new.dropLast, e.call.isBulkWrite = true → 0 ≤ e.resp.ret) ∧
      (k < 4 → ∃ e, new.getLast? = some e ∧ e.call.isBulkWrite = true ∧ e.resp.ret < 0) ∧
      ((channel_setup_fit api lf s h channel waveform frequency amplidude offset).1 = 1 ↔
        k = 4 ∧ ∀ e ∈ new, e.call.isBulkWrite = true → 0 ≤ e.resp.ret) ∧
      ((channel_setup_fit api lf s h channel waveform frequency amplidude offset).1 = 1 ∨
        (channel_setup_fit api lf s h channel waveform frequency amplidude offset).1 = 0) := by
  have hg : ¬ (h = NULL ∨ channel < 1 ∨ channel > 2) := by
    rintro (h0 | h1 | h2)
    · exact hh h0
    · omega
    · omega
  have hnr : ∀ cmd : List Char, ∀ c ∈ exchange_calls h cmd, c.isBulkRead = false := by
    intro cmd c hcm
    simp only [exchange_calls, List.mem_cons, List.mem_singleton, List.not_mem_nil,
      or_false] at hcm
    rcases hcm with rfl | rfl <;> rfl
  simp only [channel_setup_fit, if_neg hg, send_query_none, ite_status_neg]
  generalize hc1 : shape_command channel waveform = c1
  generalize hc2 : frequency_command lf channel frequency = c2
  generalize hc3 : amplitude_command lf channel amplidude = c3
  generalize hc4 : offset_command lf channel offset = c4
  have hcmds : setup_commands lf channel waveform frequency amplidude offset = [c1, c2, c3, c4] := by
    simp only [setup_commands, hc1, hc2, hc3, hc4]
  rw [hcmds]
  generalize hs1 : after_write api s h c1 = s1
  generalize hs2 : after_write api s1 h c2 = s2
  generalize hs3 : after_write api s2 h c3 = s3
  generalize hs4 : after_write api s3 h c4 = s4
  have t1 : s1.trace = s.trace ++ write_events api s h c1 (strlen c1) := by
    rw [← hs1, after_write_trace]
  have t2 : s2.trace = s.trace ++ (write_events api s h c1 (strlen c1) ++
      write_events api s1 h c2 (strlen c2)) := by
    rw [← hs2, after_write_trace, t1, List.append_assoc]
  have t3 : s3.trace = s.trace ++ (write_events api s h c1 (strlen c1) ++
      write_events api s1 h c2 (strlen c2) ++ write_events api s2 h c3 (strlen c3)) := by
    rw [← hs3, after_write_trace, t2, List.append_assoc]
  have t4 : s4.trace = s.trace ++ (write_events api s h c1 (strlen c1) ++
      write_events api s1 h c2 (strlen c2) ++ write_events api s2 h c3 (strlen c3) ++
      write_events api s3 h c4 (strlen c4)) := by
    rw [← hs4, after_write_trace, t3, List.append_assoc]
  by_cases w1 : write_status api s h c1 (strlen c1) < 0
  · -- the shape command fails
    refine ⟨1, write_events api s h c1 (strlen c1), le_refl 1, by decide, ?_, ?_, ?_, ?_, ?_,
      ?_, ?_⟩
    · simp only [if_pos w1, t1]
    · simp [calls_write_events]
    · intro c hcm
      rw [calls_write_events] at hcm
      exact hnr c1 c hcm
    · intro e he hb
      have := write_events_dropLast api s h c1 [] e (by simpa using he) hb
      simp at this
    · intro _
      obtain ⟨e, h1, h2, h3⟩ := write_events_getLast api s h c1 []
      exact ⟨e, by simpa using h1, h2, by rw [h3]; exact w1⟩
    · simp only [if_pos w1]
      constructor
      · intro hcon
        exact absurd hcon (by decide)
      · rintro ⟨hcon, _⟩
        exact absurd hcon (by decide)
    · right
      simp only [if_pos w1]
  have w1p := not_lt.mp w1
  by_cases w2 : write_status api s1 h c2 (strlen c2) < 0
  · -- the frequency command fails
    refine ⟨2, write_events api s h c1 (strlen c1) ++ write_events api s1 h c2 (strlen c2),
      by decide, by decide, ?_, ?_, ?_, ?_, ?_, ?_, ?_⟩
    · simp only [if_neg w1, if_pos w2, t2]
    · simp [calls_append, calls_write_events]
    · intro c hcm
      rw [calls_append, calls_write_events, calls_write_events, List.mem_append] at hcm
      rcases hcm with hcm | hcm
      · exact hnr c1 c hcm
      · exact hnr c2 c hcm
    · intro e he hb
      have hm := write_events_dropLast api s1 h c2 _ e he hb
      rw [write_events_status api s h c1 e hm hb]
      exact w1p
    · intro _
      obtain ⟨e, h1, h2, h3⟩ := write_events_getLast api s1 h c2 (write_events api s h c1 (strlen c1))
      exact ⟨e, h1, h2, by rw [h3]; exact w2⟩
    · simp only [if_neg w1, if_pos w2]
      constructor
      · intro hcon
        exact absurd hcon (by decide)
      · rintro ⟨hcon, _⟩
        exact absurd hcon (by decide)
    · right
      simp only [if_neg w1, if_pos w2]
  have w2p := not_lt.mp w2
  by_cases w3 : write_status api s2 h c3 (strlen c3) < 0
  · -- the amplitude command fails
    refine ⟨3, write_events api s h c1 (strlen c1) ++ write_events api s1 h c2 (strlen c2) ++
      write_events api s2 h c3 (strlen c3), by decide, by decide, ?_, ?_, ?_, ?_, ?_, ?_, ?_⟩
    · simp only [if_neg w1, if_neg w2, if_pos w3, t3]
    · simp [calls_append, calls_write_events]
    · intro c hcm
      rw [calls_append, calls_append, calls_write_events, calls_write_events,
        calls_write_events, List.mem_append, List.mem_append] at hcm
      rcases hcm with (hcm | hcm) | hcm
      · exact hnr c1 c hcm
      · exact hnr c2 c hcm
      · exact hnr c3 c hcm
    · intro e he hb
      have hm := write_events_dropLast api s2 h c3 _ e he hb
      rcases List.mem_append.mp hm with hm | hm
      · rw [write_events_status api s h c1 e hm hb]
        exact w1p
      · rw [write_events_status api s1 h c2 e hm hb]
        exact w2p
    · intro _
      obtain ⟨e, h1, h2, h3⟩ := write_events_getLast api s2 h c3
        (write_events api s h c1 (strlen c1) ++ write_events api s1 h c2 (strlen c2))
      exact ⟨e, h1, h2, by rw [h3]; exact w3⟩
    · simp only [if_neg w1, if_neg w2, if_pos w3]
      constructor
      · intro hcon
        exact absurd hcon (by decide)
      · rintro ⟨hcon, _⟩
        exact absurd hcon (by decide)
    · right
      simp only [if_neg w1, if_neg w2, if_pos w3]
  have w3p := not_lt.mp w3
  -- all four commands are issued
  refine ⟨4, write_events api s h c1 (strlen c1) ++ write_events api s1 h c2 (strlen c2) ++
    write_events api s2 h c3 (strlen c3) ++ write_events api s3 h c4 (strlen c4),
    by decide, le_refl 4, ?_, ?_, ?_, ?_, ?_, ?_, ?_⟩
  · by_cases w4 : write_status api s3 h c4 (strlen c4) < 0
    · simp only [if_neg w1, if_neg w2, if_neg w3, if_pos w4, t4]
    · simp only [if_neg w1, if_neg w2, if_neg w3, if_neg w4, t4]
  · simp [calls_append, calls_write_events]
  · intro c hcm
    rw [calls_append, calls_append, calls_append, calls_write_events, calls_write_events,
      calls_write_events, calls_write_events, List.mem_append, List.mem_append,
      List.mem_append] at hcm
    rcases hcm with ((hcm | hcm) | hcm) | hcm
    · exact hnr c1 c hcm
    · exact hnr c2 c hcm
    · exact hnr c3 c hcm
    · exact hnr c4 c hcm
  · intro e he hb
    have hm := write_events_dropLast api s3 h c4 _ e he hb
    rcases List.mem_append.mp hm with hm | hm
    · rcases List.mem_append.mp hm with hm | hm
      · rw [write_events_status api s h c1 e hm hb]
        exact w1p
      · rw [write_events_status api s1 h c2 e hm hb]
        exact w2p
    · rw [write_events_status api s2 h c3 e hm hb]
      exact w3p
  · intro hcon
    exact absurd hcon (by decide)
  · by_cases w4 : write_status api s3 h c4 (strlen c4) < 0
    · simp only [if_neg w1, if_neg w2, if_neg w3, if_pos w4]
      constructor
      · intro hcon
        exact absurd hcon (by decide)
      · rintro ⟨_, hall⟩
        obtain ⟨e, h1, h2, h3⟩ := write_events_getLast api s3 h c4
          (write_events api s h c1 (strlen c1) ++ write_events api s1 h c2 (strlen c2) ++
            write_events api s2 h c3 (strlen c3))
        have := hall e (List.mem_of_getLast?_eq_some h1) h2
        rw [h3] at this
        exact absurd w4 (not_lt.mpr this)
    · simp only [if_neg w1, if_neg w2, if_neg w3, if_neg w4, true_iff, true_and]
      intro e he hb
      rcases List.mem_append.mp he with hm | hm
      · rcases List.mem_append.mp hm with hm | hm
        · rcases List.mem_append.mp hm with hm | hm
          · rw [write_events_status api s h c1 e hm hb]
            exact w1p
          · rw [write_events_status api s1 h c2 e hm hb]
            exact w2p
        · rw [write_events_status api s2 h c3 e hm hb]
          exact w3p
      · rw [write_events_status api s3 h c4 e hm hb]
        exact not_lt.mp w4
  · by_cases w4 : write_status api s3 h c4 (strlen c4) < 0
    · right
      simp only [if_neg w1, if_neg w2, if_neg w3, if_pos w4]
    · left
      simp only [if_neg w1, if_neg w2, if_neg w3, if_neg w4]

theorem sprintf_fits (size : Nat) (text : List Char) (hfit : text.length < size) :
    sprintf size text = some text := by
  simp only [sprintf, if_pos hfit]

theorem shape_fits (channel : Int) (waveform : List Char) (hc : channel = 1 ∨ channel = 2)
    (hw : waveform.length ≤ 1000) : (shape_command channel waveform).length < 1024 := by
  have h1 : "SOURce".toList.length = 6 := by decide
  have h2 : (fmt_d 1).length = 1 := by decide
  have h3 : (fmt_d 2).length = 1 := by decide
  have h4 : ":FUNCtion:SHAPe ".toList.length = 16 := by decide
  rcases hc with rfl | rfl <;> simp only [shape_command, List.length_append] <;> omega

theorem frequency_fits (lf : Printf_lf) (channel : Int) (frequency : Float)
    (hc : channel = 1 ∨ channel = 2) :
    (frequency_command lf channel frequency).length < 1024 := by
  have hb := lf.bounded frequency
  have h1 : "SOURce".toList.length = 6 := by decide
  have h2 : (fmt_d 1).length = 1 := by decide
  have h3 : (fmt_d 2).length = 1 := by decide
  have h4 : ":FREQuency:FIXed ".toList.length = 17 := by decide
  have h5 : "Hz".toList.length = 2 := by decide
  rcases hc with rfl | rfl <;> simp only [frequency_command, List.length_append] <;> omega

theorem amplitude_fits (lf : Printf_lf) (channel : Int) (amplidude : Float)
    (hc : channel = 1 ∨ channel = 2) :
    (amplitude_command lf channel amplidude).length < 1024 := by
  have hb := lf.bounded amplidude
  have h1 : "SOURce".toList.length = 6 := by decide
  have h2 : (fmt_d 1).length = 1 := by decide
  have h3 : (fmt_d 2).length = 1 := by decide
  have h4 : ":VOLTage:LEVel:IMMediate:AMPLitude ".toList.length = 35 := by decide
  have h5 : "Vpp".toList.length = 3 := by decide
  rcases hc with rfl | rfl <;> simp only [amplitude_command, List.length_append] <;> omega

theorem offset_fits (lf : Printf_lf) (channel : Int) (offset : Float)
    (hc : channel = 1 ∨ channel = 2) :
    (offset_command lf channel offset).length < 1024 := by
  have hb := lf.bounded offset
  have h1 : "SOURce".toList.length = 6 := by decide
  have h2 : (fmt_d 1).length = 1 := by decide
  have h3 : (fmt_d 2).length = 1 := by decide
  have h4 : ":VOLTage:LEVel:IMMediate:OFFset ".toList.length = 32 := by decide
  have h5 : "Vpp".toList.length = 3 := by decide
  rcases hc with rfl | rfl <;> simp only [offset_command, List.length_append] <;> omega

/-- When the waveform leaves room in `buf`, no `sprintf` of `channel_setup`
overruns it. -/
theorem channel_setup_eq_fit {W : Type} (api : LibUsb W) (lf : Printf_lf) (s : State W)
    (h : Handle) (channel : Int) (waveform : List Char) (frequency amplidude offset : Float)
    (hc : channel = 1 ∨ channel = 2) (hw : waveform.length ≤ 1000) :
    channel_setup api lf s h channel waveform frequency amplidude offset =
      some (channel_setup_fit api lf s h channel waveform frequency amplidude offset) := by
  simp only [channel_setup, channel_setup_fit,
    sprintf_fits 1024 _ (shape_fits channel waveform hc hw),
    sprintf_fits 1024 _ (frequency_fits lf channel frequency hc),
    sprintf_fits 1024 _ (amplitude_fits lf channel amplidude hc),
    sprintf_fits 1024 _ (offset_fits lf channel offset hc)]
  split_ifs <;> rfl

/-- C6, as stated, fails: for the non-NULL session 7, channel 1 and a waveform of
2000 bytes the first `sprintf` of `channel_setup` writes 2024 bytes into
`buf[1024]`, past its end, so the call has no defined result and call
sequence. -/
theorem channel_setup_overruns_buffer :
    (7 : Handle) ≠ NULL ∧ longWaveform.length = 2000 ∧
    (shape_command 1 longWaveform).length + 1 = 2024 ∧
    (channel_setup (scripted (fun _ _ => okResp 0) []) lfFixed (State.initial 0) 7 1
      longWaveform 500000.0 1.0 0.0).isNone = true := by
  have h1 : "SOURce".toList.length = 6 := by decide
  have h2 : (fmt_d 1).length = 1 := by decide
  have h3 : ":FUNCtion:SHAPe ".toList.length = 16 := by decide
  have hl : (shape_command 1 longWaveform).length = 2023 := by
    simp only [shape_command, longWaveform, List.length_append, List.length_replicate, h1, h2, h3]
  have hg : ¬ ((7 : Handle) = NULL ∨ (1 : Int) < 1 ∨ (1 : Int) > 2) := by decide
  have hs : sprintf 1024 (shape_command 1 longWaveform) = none := by
    simp only [sprintf, hl]
    rfl
  refine ⟨by decide, by simp only [longWaveform, List.length_replicate], by rw [hl], ?_⟩
  simp only [channel_setup, if_neg hg, hs]
  rfl

/-- C6 (amended). For a non-NULL session, a channel in {1,2} and a waveform of at
most 1000 bytes, `channel_setup` returns, and the calls it makes are the
exchanges (clear-halt on the write endpoint 0x01, bulk write of the command
text with its length, never a read) of the first `k` commands of shape,
frequency, amplitude, offset, with `1 <= k <= 4`; every write but the last got
a non-negative status; when `k < 4` the last write got a negative status; and
the result is 1 exactly when all four were issued and every write status is
non-negative, 0 otherwise. -/
theorem channel_setup_within_buffer {W : Type} (api : LibUsb W) (lf : Printf_lf)
    (s : State W) (h : Handle) (channel : Int) (waveform : List Char)
    (frequency amplidude offset : Float)
    (hh : h ≠ NULL) (hc : channel = 1 ∨ channel = 2) (hw : waveform.length ≤ 1000) :
    ∃ (result : Int) (final : State W) (k : Nat) (new : List Event),
      channel_setup api lf s h channel waveform frequency amplidude offset =
        some (result, final) ∧
      1 ≤ k ∧ k ≤ 4 ∧ final.trace = s.trace ++ new ∧
      calls new =
        ([ "SOURce".toList ++ (toString channel).toList ++ ":FUNCtion:SHAPe ".toList ++ waveform,
           "SOURce".toList ++ (toString channel).toList ++ ":FREQuency:FIXed ".toList ++
             lf.conv frequency ++ "Hz".toList,
           "SOURce".toList ++ (toString channel).toList ++
             ":VOLTage:LEVel:IMMediate:AMPLitude ".toList ++ lf.conv amplidude ++ "Vpp".toList,
           "SOURce".toList ++ (toString channel).toList ++
             ":VOLTage:LEVel:IMMediate:OFFset ".toList ++ lf.conv offset ++ "Vpp".toList
         ].take k).flatMap
          (fun cmd => [Call.usb_clear_halt h 0x01,
                       Call.usb_bulk_write h 0x01 cmd (cmd.length : Int) 500]) ∧
      (∀ c ∈ calls new, c.isBulkRead = false) ∧
      (∀ e ∈ new.dropLast, e.call.isBulkWrite = true → 0 ≤ e.resp.ret) ∧
      (k < 4 → ∃ e, new.getLast? = some e ∧ e.call.isBulkWrite = true ∧ e.resp.ret < 0) ∧
      (result = 1 ↔ k = 4 ∧ ∀ e ∈ new, e.call.isBulkWrite = true → 0 ≤ e.resp.ret) ∧
      (result = 1 ∨ result = 0) := by
  obtain ⟨k, new, k1, k4, htr, hcalls, hnr, hdl, hlast, hiff, hor⟩ :=
    channel_setup_fit_sequence api lf s h channel waveform frequency amplidude offset hh hc
  exact ⟨_, _, k, new,
    channel_setup_eq_fit api lf s h channel waveform frequency amplidude offset hc hw,
    k1, k4, htr, hcalls, hnr, hdl, hlast, hiff, hor⟩

set_option maxRecDepth 100000 in
/-- C6 (amended) at a concrete input: channel 1, waveform "SINE", session 7, every
call answering 0: all four commands go out, with these texts and lengths. -/
theorem channel_setup_within_buffer_witness :
    (7 : Handle) ≠ NULL ∧ ((1 : Int) = 1 ∨ (1 : Int) = 2) ∧ "SINE".toList.length ≤ 1000 ∧
    (∃ (result : Int) (final : State Nat) (k : Nat) (new : List Event),
      channel_setup (scripted (fun _ _ => okResp 0) []) lfFixed (State.initial 0) 7 1
        "SINE".toList 500000.0 1.0 0.0 = some (result, final) ∧
      1 ≤ k ∧ k ≤ 4 ∧ final.trace = (State.initial 0).trace ++ new) ∧
    (channel_setup (scripted (fun _ _ => okResp 0) []) lfFixed (State.initial 0) 7 1
        "SINE".toList 500000.0 1.0 0.0).map (fun r => (r.1, calls r.2.trace)) =
      some (1,
        [.usb_clear_halt 7 1,
         .usb_bulk_write 7 1 "SOURce1:FUNCtion:SHAPe SINE".toList 27 500,
         .usb_clear_halt 7 1,
         .usb_bulk_write 7 1 "SOURce1:FREQuency:FIXed 1.000000Hz".toList 34 500,
         .usb_clear_halt 7 1,
         .usb_bulk_write 7 1 "SOURce1:VOLTage:LEVel:IMMediate:AMPLitude 1.000000Vpp".toList
           53 500,
         .usb_clear_halt 7 1,
         .usb_bulk_write 7 1 "SOURce1:VOLTage:LEVel:IMMediate:OFFset 1.000000Vpp".toList
           50 500]) :=
  ⟨by decide, Or.inl rfl, by decide,
   (channel_setup_within_buffer (scripted (fun _ _ => okResp 0) []) lfFixed
      (State.initial 0) 7 1 "SINE".toList 500000.0 1.0 0.0 (by decide) (Or.inl rfl)
      (by decide)).imp fun _ hr => hr.imp fun _ hf => hf.imp fun _ hk => hk.imp fun _ hn =>
        ⟨hn.1, hn.2.1, hn.2.2.1, hn.2.2.2.1⟩,
   by decide⟩

/-- C10 (code defect). With two matching devices on the bus, one scan from the
empty candidate list records only the first: `locksFound` is 1 (not 2), the
second slot of `usb_locks` stays `NULL`, and only the first device is opened and
reset. -/
theorem devfindOwon_stops_at_first_match :
    (devfindOwon (scripted (fun _ _ => okResp 0) twoOwons) (State.initial 0)).1 =
      some ⟨0x5345, 0x1234, 1⟩ ∧
    (devfindOwon (scripted (fun _ _ => okResp 0) twoOwons) (State.initial 0)).2.locksFound = 1 ∧
    (devfindOwon (scripted (fun _ _ => okResp 0) twoOwons) (State.initial 0)).2.usb_locks =
      some ⟨0x5345, 0x1234, 1⟩ :: List.replicate 9 none ∧
    calls (devfindOwon (scripted (fun _ _ => okResp 0) twoOwons) (State.initial 0)).2.trace =
      [.usb_find_busses, .usb_find_devices, .usb_open ⟨0x5345, 0x1234, 1⟩, .usb_reset 7] := by
  decide

theorem locksInv_initial {W : Type} (w : W) : LocksInv (State.initial w) := by
  refine ⟨Nat.zero_le _, by simp [State.initial], ?_⟩
  intro i hi
  exact absurd hi (Nat.not_lt_zero i)

theorem locksInv_call {W : Type} (api : LibUsb W) (s : State W) (c : Call)
    (hs : LocksInv s) : LocksInv (call api s c).2 := hs

theorem locksInv_found {W : Type} (s : State W) (dev : usb_device) (hs : LocksInv s)
    (hv : dev.idVendor = USB_LOCK_VENDOR) (hp : dev.idProduct = USB_LOCK_PRODUCT) :
    LocksInv (found_usb_lock s dev) := by
  obtain ⟨h1, h2, h3⟩ := hs
  unfold found_usb_lock
  by_cases hlt : s.locksFound < MAX_USB_LOCKS
  · rw [if_pos hlt]
    refine ⟨hlt, by simp [h2], ?_⟩
    intro i hi
    by_cases hie : i = s.locksFound
    · refine ⟨dev, ?_, hv, hp⟩
      subst hie
      simp only [List.getElem?_set, if_true]
      rw [if_pos (by rw [h2]; exact hlt)]
    · obtain ⟨d, hd, hdv, hdp⟩ := h3 i (by
        have : i < s.locksFound + 1 := hi
        omega)
      refine ⟨d, ?_, hdv, hdp⟩
      simp only [List.getElem?_set]
      rw [if_neg (fun hcon => hie hcon.symm)]
      exact hd
  · rw [if_neg hlt]
    exact ⟨h1, h2, h3⟩

theorem locksInv_devices {W : Type} (api : LibUsb W) (devs : List usb_device) (s : State W)
    (hs : LocksInv s) : LocksInv (devfind_devices api devs s).2 := by
  induction devs with
  | nil => exact hs
  | cons dev rest ih =>
    unfold devfind_devices
    by_cases hm : dev.idVendor = USB_LOCK_VENDOR ∧ dev.idProduct = USB_LOCK_PRODUCT
    · rw [if_pos hm]
      exact locksInv_call api _ _ (locksInv_call api _ _ (locksInv_found s dev hs hm.1 hm.2))
    · rw [if_neg hm]
      exact ih

theorem devices_returned {W : Type} (api : LibUsb W) (devs : List usb_device) (s : State W)
    (d : usb_device) (hd : (devfind_devices api devs s).1 = some d) :
    d ∈ devs ∧ d.idVendor = USB_LOCK_VENDOR ∧ d.idProduct = USB_LOCK_PRODUCT := by
  induction devs with
  | nil => simp [devfind_devices] at hd
  | cons dev rest ih =>
    unfold devfind_devices at hd
    by_cases hm : dev.idVendor = USB_LOCK_VENDOR ∧ dev.idProduct = USB_LOCK_PRODUCT
    · rw [if_pos hm] at hd
      have hdd : dev = d := Option.some.inj hd
      subst hdd
      exact ⟨List.mem_cons_self _ _, hm.1, hm.2⟩
    · rw [if_neg hm] at hd
      obtain ⟨h1, h2⟩ := ih hd
      exact ⟨List.mem_cons_of_mem _ h1, h2⟩

theorem locksInv_busses {W : Type} (api : LibUsb W) (busses : List usb_bus) (s : State W)
    (hs : LocksInv s) : LocksInv (devfind_busses api busses s).2 := by
  induction busses generalizing s with
  | nil => exact hs
  | cons bus rest ih =>
    have hd := locksInv_devices api bus.devices s hs
    unfold devfind_busses
    split
    · next dev s1 heq =>
      rw [heq] at hd
      exact hd
    · next s1 heq =>
      rw [heq] at hd
      exact ih s1 hd

theorem busses_returned {W : Type} (api : LibUsb W) (busses : List usb_bus) (s : State W)
    (d : usb_device) (hd : (devfind_busses api busses s).1 = some d) :
    (∃ bus ∈ busses, d ∈ bus.devices) ∧
      d.idVendor = USB_LOCK_VENDOR ∧ d.idProduct = USB_LOCK_PRODUCT := by
  induction busses generalizing s with
  | nil => simp [devfind_busses] at hd
  | cons bus rest ih =>
    unfold devfind_busses at hd
    split at hd
    · next dev s1 heq =>
      have hdd : dev = d := Option.some.inj hd
      subst hdd
      have := devices_returned api bus.devices s dev (by rw [heq])
      exact ⟨⟨bus, List.mem_cons_self _ _, this.1⟩, this.2⟩
    · next s1 heq =>
      obtain ⟨⟨b, hb, hdb⟩, h2⟩ := ih s1 hd
      exact ⟨⟨b, List.mem_cons_of_mem _ hb, hdb⟩, h2⟩

theorem locksInv_devfindOwon {W : Type} (api : LibUsb W) (s : State W) (hs : LocksInv s) :
    LocksInv (devfindOwon api s).2 :=
  locksInv_busses api _ _ (locksInv_call api _ _ (locksInv_call api _ _ hs))

theorem locksInv_scans {W : Type} (api : LibUsb W) (n : Nat) (s : State W) (hs : LocksInv s) :
    LocksInv (scans api n s) := by
  induction n with
  | zero => exact hs
  | succ n ih => exact locksInv_devfindOwon api _ ih

/-- C9. Starting from the empty candidate list, after any number `n` of
`devfindOwon` scans (each seeing whatever bus list the world then holds),
`locksFound` is at most `MAX_USB_LOCKS` = 10, every slot `usb_locks[i]` with
`i < locksFound` holds a device with vendor 0x5345 and product 0x1234, and the
device a further scan returns, if any, has that vendor and product too. -/
theorem scanner_invariant {W : Type} (api : LibUsb W) (w : W) (n : Nat) :
    (scans api n (State.initial w)).locksFound ≤ 10 ∧
    (∀ i, i < (scans api n (State.initial w)).locksFound →
      ∃ d, (scans api n (State.initial w)).usb_locks[i]? = some (some d) ∧
        d.idVendor = 0x5345 ∧ d.idProduct = 0x1234) ∧
    (∀ d, (devfindOwon api (scans api n (State.initial w))).1 = some d →
      d.idVendor = 0x5345 ∧ d.idProduct = 0x1234) := by
  obtain ⟨h1, _, h3⟩ := locksInv_scans api n _ (locksInv_initial w)
  refine ⟨h1, h3, ?_⟩
  intro d hd
  exact (busses_returned api _ _ d hd).2

/-- C9 at a concrete input: eleven scans of a bus with two matching devices fill
the ten slots and stop there. -/
theorem scanner_invariant_witness :
    (scans (scripted (fun _ _ => okResp 0) twoOwons) 11 (State.initial 0)).locksFound ≤ 10 ∧
    ∃ d, (scans (scripted (fun _ _ => okResp 0) twoOwons) 11 (State.initial 0)).usb_locks[9]? =
        some (some d) ∧ d.idVendor = 0x5345 ∧ d.idProduct = 0x1234 :=
  ⟨(scanner_invariant (scripted (fun _ _ => okResp 0) twoOwons) 0 11).1,
   (scanner_invariant (scripted (fun _ _ => okResp 0) twoOwons) 0 11).2.1 9 (by decide)⟩

set_option maxRecDepth 100000 in
/-- C5 (code defect). The identity read returns the one-byte response "O", which
does not begin with either signature, into a 256-byte buffer whose prior
content starts with "OWON,DGE2035,": `main` sets `model` to 2035, keeps the
session and exits with status 0 after the channel commands, instead of leaving
the model at 0 and giving up with status 3. -/
theorem main_identifies_stale_buffer :
    staleBuffer.length = 256 ∧
    "O".toList.take 13 ≠ OWON_IDN_WANTED_35 ∧ "O".toList.take 13 ≠ OWON_IDN_WANTED_70 ∧
    (main shortReply lfFixed false (fun _ => staleBuffer) 0 0).map
      (fun r => (r.1, r.2.model)) = some (0, 2035) := by
  decide

theorem onlyTransport_refl {W : Type} (h : Handle) (s : State W) : OnlyTransport h s s :=
  ⟨[], by simp, by simp⟩

theorem onlyTransport_trans {W : Type} (h : Handle) (s t u : State W)
    (h1 : OnlyTransport h s t) (h2 : OnlyTransport h t u) : OnlyTransport h s u := by
  obtain ⟨n1, e1, p1⟩ := h1
  obtain ⟨n2, e2, p2⟩ := h2
  refine ⟨n1 ++ n2, by rw [e2, e1, List.append_assoc], ?_⟩
  intro e he
  rcases List.mem_append.mp he with hm | hm
  · exact p1 e hm
  · exact p2 e hm

theorem onlyTransport_call {W : Type} (api : LibUsb W) (h : Handle) (s : State W) (c : Call)
    (hc : c.isTransport = true ∧ c.handle? = some h) : OnlyTransport h s (call api s c).2 := by
  refine ⟨[⟨c, (call api s c).1⟩], call_trace api s c, ?_⟩
  intro e he
  rw [List.mem_singleton] at he
  subst he
  exact hc

theorem onlyTransport_send_query {W : Type} (api : LibUsb W) (s : State W) (h : Handle)
    (cmd : List Char) (cmd_len : Int) (buf : Option (List Char)) (buf_len : Int) :
    OnlyTransport h s (send_query api s h cmd cmd_len buf buf_len).2 := by
  have k1 := onlyTransport_call api h s (.usb_clear_halt h BULK_WRITE_ENDPOINT) ⟨rfl, rfl⟩
  have k2 := onlyTransport_trans h _ _ _ k1 (onlyTransport_call api h _
    (.usb_bulk_write h BULK_WRITE_ENDPOINT cmd cmd_len DEFAULT_TIMEOUT) ⟨rfl, rfl⟩)
  have k3 := onlyTransport_trans h _ _ _ k2 (onlyTransport_call api h _
    (.usb_clear_halt h BULK_READ_ENDPOINT) ⟨rfl, rfl⟩)
  have k4 := onlyTransport_trans h _ _ _ k3 (onlyTransport_call api h _
    (.usb_bulk_read h BULK_READ_ENDPOINT buf_len DEFAULT_TIMEOUT) ⟨rfl, rfl⟩)
  have k5 := onlyTransport_trans h _ _ _ k4 (onlyTransport_call api h _
    (.usb_resetep h BULK_READ_ENDPOINT) ⟨rfl, rfl⟩)
  unfold send_query
  cases buf <;> simp only <;> split_ifs <;> first | exact k2 | exact k5 | exact k4

theorem onlyTransport_set_state {W : Type} (api : LibUsb W) (s : State W) (h : Handle)
    (channel state : Int) : OnlyTransport h s (channel_set_state api s h channel state).2 := by
  unfold channel_set_state
  simp only
  split_ifs
  · exact onlyTransport_refl h s
  · exact onlyTransport_send_query api s h _ _ none 0
  · exact onlyTransport_send_query api s h _ _ none 0

theorem onlyTransport_setup {W : Type} (api : LibUsb W) (lf : Printf_lf) (s : State W)
    (h : Handle) (channel : Int) (waveform : List Char) (frequency amplidude offset : Float) :
    OnlyTransport h s
      (channel_setup_fit api lf s h channel waveform frequency amplidude offset).2 := by
  have k1 := onlyTransport_send_query api s h (shape_command channel waveform)
    (strlen (shape_command channel waveform)) none 0
  have k2 := onlyTransport_trans h _ _ _ k1 (onlyTransport_send_query api _ h
    (frequency_command lf channel frequency) (strlen (frequency_command lf channel frequency))
    none 0)
  have k3 := onlyTransport_trans h _ _ _ k2 (onlyTransport_send_query api _ h
    (amplitude_command lf channel amplidude) (strlen (amplitude_command lf channel amplidude))
    none 0)
  have k4 := onlyTransport_trans h _ _ _ k3 (onlyTransport_send_query api _ h
    (offset_command lf channel offset) (strlen (offset_command lf channel offset)) none 0)
  unfold channel_setup_fit
  simp only
  split_ifs
  · exact onlyTransport_refl h s
  · exact k1
  · exact k2
  · exact k3
  · exact k4
  · exact k4

theorem found_first {W : Type} (s : State W) (dev : usb_device) (h0 : s.locksFound = 0)
    (hl : s.usb_locks.length = MAX_USB_LOCKS) :
    (found_usb_lock s dev).locksFound = 1 ∧
      (found_usb_lock s dev).usb_locks.head? = some (some dev) := by
  unfold found_usb_lock
  have hlt : s.locksFound < MAX_USB_LOCKS := by rw [h0]; decide
  rw [if_pos hlt]
  refine ⟨by simp [h0], ?_⟩
  cases hls : s.usb_locks with
  | nil => rw [hls] at hl; simp [MAX_USB_LOCKS] at hl
  | cons x xs => simp [h0]

theorem devices_first {W : Type} (api : LibUsb W) (devs : List usb_device) (s : State W)
    (d : usb_device) (h0 : s.locksFound = 0) (hl : s.usb_locks.length = MAX_USB_LOCKS)
    (hd : (devfind_devices api devs s).1 = some d) :
    (devfind_devices api devs s).2.locksFound = 1 ∧
      (devfind_devices api devs s).2.usb_locks.head? = some (some d) := by
  induction devs with
  | nil => simp [devfind_devices] at hd
  | cons dev rest ih =>
    unfold devfind_devices at hd ⊢
    by_cases hm : dev.idVendor = USB_LOCK_VENDOR ∧ dev.idProduct = USB_LOCK_PRODUCT
    · rw [if_pos hm] at hd ⊢
      have hdd : dev = d := Option.some.inj hd
      subst hdd
      exact found_first s dev h0 hl
    · rw [if_neg hm] at hd ⊢
      exact ih hd

theorem devices_none {W : Type} (api : LibUsb W) (devs : List usb_device) (s : State W)
    (hd : (devfind_devices api devs s).1 = none) : (devfind_devices api devs s).2 = s := by
  induction devs with
  | nil => rfl
  | cons dev rest ih =>
    unfold devfind_devices at hd ⊢
    by_cases hm : dev.idVendor = USB_LOCK_VENDOR ∧ dev.idProduct = USB_LOCK_PRODUCT
    · rw [if_pos hm] at hd
      exact absurd hd (by simp)
    · rw [if_neg hm] at hd ⊢
      exact ih hd

theorem busses_first {W : Type} (api : LibUsb W) (busses : List usb_bus) (s : State W)
    (d : usb_device) (h0 : s.locksFound = 0) (hl : s.usb_locks.length = MAX_USB_LOCKS)
    (hd : (devfind_busses api busses s).1 = some d) :
    (devfind_busses api busses s).2.locksFound = 1 ∧
      (devfind_busses api busses s).2.usb_locks.head? = some (some d) := by
  induction busses with
  | nil => simp [devfind_busses] at hd
  | cons bus rest ih =>
    unfold devfind_busses at hd ⊢
    split at hd
    · next dev s1 heq =>
      have hdd : dev = d := Option.some.inj hd
      subst hdd
      have k := devices_first api bus.devices s dev h0 hl (by rw [heq])
      rw [heq] at k
      exact k
    · next s1 heq =>
      have hs1 : s1 = s := by
        have k := devices_none api bus.devices s (by rw [heq])
        rw [heq] at k
        exact k
      subst hs1
      exact ih hd

theorem devfindOwon_first {W : Type} (api : LibUsb W) (s : State W) (d : usb_device)
    (h0 : s.locksFound = 0) (hl : s.usb_locks.length = MAX_USB_LOCKS)
    (hd : (devfindOwon api s).1 = some d) :
    (devfindOwon api s).2.locksFound = 1 ∧
      (devfindOwon api s).2.usb_locks.head? = some (some d) :=
  busses_first api _ _ d h0 hl hd

theorem main_loop_one {W : Type} (api : LibUsb W) (garbage : Nat → List Char) (h0 : Handle)
    (s : State W) (dev : usb_device) (hhead : s.usb_locks.head? = some (some dev)) :
    main_loop api garbage 1 0 h0 s =
      if (connect_to_device api s dev).1 = NULL then
        some (NULL, (connect_to_device api s dev).2)
      else if (send_query api (connect_to_device api s dev).2 (connect_to_device api s dev).1
          OWON_IDN_QUERY (OWON_IDN_QUERY.length + 1) (some (garbage 0)) 256).1.1 > 0 then
        if memcmp ((send_query api (connect_to_device api s dev).2
            (connect_to_device api s dev).1 OWON_IDN_QUERY (OWON_IDN_QUERY.length + 1)
            (some (garbage 0)) 256).1.2.getD []) OWON_IDN_WANTED_35
            OWON_IDN_WANTED_35.length = 0 then
          some ((connect_to_device api s dev).1,
            { (send_query api (connect_to_device api s dev).2 (connect_to_device api s dev).1
                OWON_IDN_QUERY (OWON_IDN_QUERY.length + 1) (some (garbage 0)) 256).2 with
              model := 2035 })
        else if memcmp ((send_query api (connect_to_device api s dev).2
            (connect_to_device api s dev).1 OWON_IDN_QUERY (OWON_IDN_QUERY.length + 1)
            (some (garbage 0)) 256).1.2.getD []) OWON_IDN_WANTED_70
            OWON_IDN_WANTED_70.length = 0 then
          some ((connect_to_device api s dev).1,
            { (send_query api (connect_to_device api s dev).2 (connect_to_device api s dev).1
                OWON_IDN_QUERY (OWON_IDN_QUERY.length + 1) (some (garbage 0)) 256).2 with
              model := 2070 })
        else
          some (NULL, release_device api (send_query api (connect_to_device api s dev).2
            (connect_to_device api s dev).1 OWON_IDN_QUERY (OWON_IDN_QUERY.length + 1)
            (some (garbage 0)) 256).2 (connect_to_device api s dev).1)
      else
        some (NULL, release_device api (send_query api (connect_to_device api s dev).2
          (connect_to_device api s dev).1 OWON_IDN_QUERY (OWON_IDN_QUERY.length + 1)
          (some (garbage 0)) 256).2 (connect_to_device api s dev).1) := by
  simp only [main_loop, hhead]

theorem releasedOnce_release {W : Type} (api : LibUsb W) (h : Handle) (s t : State W)
    (hot : OnlyTransport h s t) :
    ∃ body : List Event, (release_device api t h).trace = s.trace ++ body ∧
      ReleasedOnce h (calls body) := by
  obtain ⟨new, e1, p1⟩ := hot
  refine ⟨new ++ [⟨.usb_reset h, (call api t (.usb_reset h)).1⟩,
    ⟨.usb_close h, (call api (call api t (.usb_reset h)).2 (.usb_close h)).1⟩], ?_, ?_⟩
  · simp only [release_device, call_trace, e1, List.append_assoc, List.singleton_append]
  · have hpre : ∀ c ∈ calls new, c.isTransport = true ∧ c.handle? = some h := by
      intro c hc
      simp only [calls, List.mem_map] at hc
      obtain ⟨e, he, rfl⟩ := hc
      exact p1 e he
    have c1 : (calls new).count (.usb_reset h) = 0 := by
      rw [List.count_eq_zero]
      intro hcon
      have := (hpre _ hcon).1
      simp [Call.isTransport] at this
    have c2 : (calls new).count (.usb_close h) = 0 := by
      rw [List.count_eq_zero]
      intro hcon
      have := (hpre _ hcon).1
      simp [Call.isTransport] at this
    refine ⟨⟨calls new, by simp [calls], hpre⟩, ?_, ?_⟩
    · rw [calls_append, List.count_append, c1]
      simp [calls]
    · rw [calls_append, List.count_append, c2]
      simp [calls]

/-- C8. Let the scan of `main` return `found` in state `scan`.  If nothing was
found, `main` exits with 3 right there and `connect_to_device` is never called.
Otherwise `connect_to_device` is called once, on the found device: if it returns
NULL, `main` exits with 3 in the state that call left; if it returns a session
`h`, `main` returns (status 0 or 3) and everything it did after the connect is
bulk-transport calls on `h` followed by `usb_reset h`, `usb_close h` as the last
two calls, with exactly one `usb_reset h` and one `usb_close h` among them. -/
theorem main_releases_session {W : Type} (api : LibUsb W) (lf : Printf_lf) (v : Bool)
    (garbage : Nat → List Char) (h0 : Handle) (w : W)
    (found : Option usb_device) (scan : State W)
    (hscan : devfindOwon api (call api { State.initial w with verbose := v } .usb_init).2 =
      (found, scan)) :
    (found = none → main api lf v garbage h0 w = some (3, scan)) ∧
    (∀ dev, found = some dev →
      ((connect_to_device api scan dev).1 = NULL →
        main api lf v garbage h0 w = some (3, (connect_to_device api scan dev).2)) ∧
      ((connect_to_device api scan dev).1 ≠ NULL →
        ∃ (code : Int) (final : State W) (body : List Event),
          main api lf v garbage h0 w = some (code, final) ∧ (code = 0 ∨ code = 3) ∧
          final.trace = (connect_to_device api scan dev).2.trace ++ body ∧
          ReleasedOnce (connect_to_device api scan dev).1 (calls body))) := by
  constructor
  · intro hn
    subst hn
    simp only [main, hscan]
  · intro dev hfd
    subst hfd
    have hfirst := devfindOwon_first api (call api { State.initial w with verbose := v }
      .usb_init).2 dev rfl rfl (by rw [hscan])
    rw [hscan] at hfirst
    obtain ⟨hl1, hl2⟩ := hfirst
    simp only at hl1 hl2
    have hml := main_loop_one api garbage h0 scan dev hl2
    generalize connect_to_device api scan dev = c at hml ⊢
    obtain ⟨h, conn⟩ := c
    simp only at hml ⊢
    constructor
    · intro hnull
      simp only [main, hscan, hl1, hml, if_pos hnull]
      simp [NULL]
    · intro hnn
      have k0 := onlyTransport_send_query api conn h OWON_IDN_QUERY (OWON_IDN_QUERY.length + 1)
        (some (garbage 0)) 256
      generalize send_query api conn h OWON_IDN_QUERY (OWON_IDN_QUERY.length + 1)
        (some (garbage 0)) 256 = q at hml k0
      -- the channel commands after a successful identification, from any state
      have tail : ∀ t : State W, OnlyTransport h conn t →
          ∃ (final : State W) (body : List Event),
            release_device api
              (channel_set_state api (channel_set_state api (channel_set_state api
                (channel_set_state api
                  (channel_setup_fit api lf (channel_setup_fit api lf
                    (channel_set_state api (channel_set_state api t h 1 0).2 h 2 0).2
                    h 1 "SINE".toList 500000.0 1.000 0.000).2
                    h 2 "SQUARE".toList 500000.0 1.000 0.000).2
                  h 1 1).2 h 2 1).2 h 1 0).2 h 2 0).2 h = final ∧
            final.trace = conn.trace ++ body ∧ ReleasedOnce h (calls body) := by
        intro t kt
        have k1 := onlyTransport_trans h _ _ _ kt (onlyTransport_set_state api _ h 1 0)
        have k2 := onlyTransport_trans h _ _ _ k1 (onlyTransport_set_state api _ h 2 0)
        have k3 := onlyTransport_trans h _ _ _ k2
          (onlyTransport_setup api lf _ h 1 "SINE".toList 500000.0 1.000 0.000)
        have k4 := onlyTransport_trans h _ _ _ k3
          (onlyTransport_setup api lf _ h 2 "SQUARE".toList 500000.0 1.000 0.000)
        have k5 := onlyTransport_trans h _ _ _ k4 (onlyTransport_set_state api _ h 1 1)
        have k6 := onlyTransport_trans h _ _ _ k5 (onlyTransport_set_state api _ h 2 1)
        have k7 := onlyTransport_trans h _ _ _ k6 (onlyTransport_set_state api _ h 1 0)
        have k8 := onlyTransport_trans h _ _ _ k7 (onlyTransport_set_state api _ h 2 0)
        obtain ⟨body, hb1, hb2⟩ := releasedOnce_release api h conn _ k8
        exact ⟨_, body, rfl, hb1, hb2⟩
      -- neither `sprintf` of the two `channel_setup` calls overruns `buf`
      have fit1 : ∀ t : State W,
          channel_setup api lf t h 1 "SINE".toList 500000.0 1.000 0.000 =
            some (channel_setup_fit api lf t h 1 "SINE".toList 500000.0 1.000 0.000) :=
        fun t => channel_setup_eq_fit api lf t h 1 _ _ _ _ (Or.inl rfl) (by decide)
      have fit2 : ∀ t : State W,
          channel_setup api lf t h 2 "SQUARE".toList 500000.0 1.000 0.000 =
            some (channel_setup_fit api lf t h 2 "SQUARE".toList 500000.0 1.000 0.000) :=
        fun t => channel_setup_eq_fit api lf t h 2 _ _ _ _ (Or.inr rfl) (by decide)
      -- the two paths that release inside the loop
      have giveup : ∃ (final : State W) (body : List Event),
          release_device api q.2 h = final ∧
            final.trace = conn.trace ++ body ∧ ReleasedOnce h (calls body) := by
        obtain ⟨body, hb1, hb2⟩ := releasedOnce_release api h conn _ k0
        exact ⟨_, body, rfl, hb1, hb2⟩
      by_cases hq : q.1.1 > 0
      · by_cases m35 : memcmp (q.1.2.getD []) OWON_IDN_WANTED_35 OWON_IDN_WANTED_35.length = 0
        · obtain ⟨final, body, e1, e2, e3⟩ := tail { q.2 with model := 2035 } k0
          refine ⟨0, final, body, ?_, Or.inl rfl, e2, e3⟩
          simp only [main, hscan, hl1, hml, if_neg hnn, if_pos hq, if_pos m35, fit1, fit2]
          exact congrArg (fun x => some ((0 : Int), x)) e1
        · by_cases m70 : memcmp (q.1.2.getD []) OWON_IDN_WANTED_70 OWON_IDN_WANTED_70.length = 0
          · obtain ⟨final, body, e1, e2, e3⟩ := tail { q.2 with model := 2070 } k0
            refine ⟨0, final, body, ?_, Or.inl rfl, e2, e3⟩
            simp only [main, hscan, hl1, hml, if_neg hnn, if_pos hq, if_neg m35, if_pos m70,
              fit1, fit2]
            exact congrArg (fun x => some ((0 : Int), x)) e1
          · obtain ⟨final, body, e1, e2, e3⟩ := giveup
            refine ⟨3, final, body, ?_, Or.inr rfl, e2, e3⟩
            simp only [main, hscan, hl1, hml, if_neg hnn, if_pos hq, if_neg m35, if_neg m70]
            simp [NULL, e1]
      · obtain ⟨final, body, e1, e2, e3⟩ := giveup
        refine ⟨3, final, body, ?_, Or.inr rfl, e2, e3⟩
        simp only [main, hscan, hl1, hml, if_neg hnn, if_neg hq]
        simp [NULL, e1]

/-- C8 at a concrete input: on `idleOwon` the connect yields session 7, the
identity read returns 0 bytes, and the session is released once. -/
theorem main_releases_session_witness :
    (connect_to_device idleOwon
      (devfindOwon idleOwon (call idleOwon { State.initial 0 with verbose := false }
        .usb_init).2).2 ⟨0x5345, 0x1234, 1⟩).1 = 7 ∧
    ∃ (code : Int) (final : State Nat) (body : List Event),
      main idleOwon lfFixed false (fun _ => staleBuffer) 0 0 = some (code, final) ∧
      (code = 0 ∨ code = 3) ∧
      final.trace = (connect_to_device idleOwon
        (devfindOwon idleOwon (call idleOwon { State.initial 0 with verbose := false }
          .usb_init).2).2 ⟨0x5345, 0x1234, 1⟩).2.trace ++ body ∧
      ReleasedOnce (connect_to_device idleOwon
        (devfindOwon idleOwon (call idleOwon { State.initial 0 with verbose := false }
          .usb_init).2).2 ⟨0x5345, 0x1234, 1⟩).1 (calls body) :=
  ⟨by decide,
   ((main_releases_session idleOwon lfFixed false (fun _ => staleBuffer) 0 0
      (devfindOwon idleOwon (call idleOwon { State.initial 0 with verbose := false }
        .usb_init).2).1
      (devfindOwon idleOwon (call idleOwon { State.initial 0 with verbose := false }
        .usb_init).2).2 rfl).2 ⟨0x5345, 0x1234, 1⟩ (by decide)).2 (by decide)⟩

end OwonDge
